import Mathlib

/-
  Shallow embedding of the lab lifecycle automaton of
  src/lx_toolbox/core/lab_manager.py (class LabManager) together with the
  pieces of src/lx_toolbox/core/base_selenium_driver.py it relies on.

  The browser page is modelled as a time-indexed oracle (`World`): every DOM
  query reads the oracle at the current tick.  A Selenium
  `WebDriverWait(driver, n).until(cond)` becomes a search for the first tick
  in the window `[t, t+n]` at which `cond` holds; on failure it raises a
  `TimeoutException` (`Err.timeout`).  Python `raise Exception(...)` becomes
  `Err.other`.  Side effects (clicks, log calls, tab selections, DOM probes)
  are recorded in an event trace so that ordering properties can be stated.
  `time.sleep` advances the clock.  Sub-second sleeps advance one tick; the
  wait bounds keep their literal second counts from the source.
-/

namespace LabMgr

deriving instance DecidableEq for Except

/-- Python exception kinds distinguished by the source's handlers:
`TimeoutException` versus every other exception. -/
inductive Err where
  | timeout (msg : String)
  | other (msg : String)
deriving Repr, DecidableEq

/-- Observable events of a run: log calls at their Python levels, DOM probes,
clicks, tab selections, and entries into the lifecycle operations (each
lifecycle method logs its course id on entry via `step_logger`). -/
inductive Ev where
  | step (msg : String)
  | info (msg : String)
  | warn (msg : String)
  | err (msg : String)
  | debug (msg : String)
  | goToUrl
  | cookies
  | clickTab (name : String)
  | selectedTab (name : String)
  | waited (tag : String)
  | probed
  | click (pos : Nat) (text : String)
  | clickConfirm (text : String)
  | clickAdj (row : String)
  | op (name : String) (course : String)
deriving Repr, DecidableEq

/-- Mutable state of a `LabManager` run: the clock and the memoized
interface type (`self._interface_type`). -/
structure St where
  time : Nat
  iface : Option String
deriving Repr, DecidableEq

/-- Result of running a computation: outcome, final state, event trace. -/
structure Res (α : Type) where
  out : Except Err α
  st : St
  tr : List Ev
deriving Repr

/-- The page oracle: what each DOM query would observe at each tick.
`labButtons t` lists the raw texts, in DOM order, of the `@type="button"`
elements inside the lab-environment panel that the probing XPath filter
(`contains(text(), "Creat"/"Delet"/"Start"/"Stop")`) ranges over;
`dialogButtons t` lists the texts of the buttons of an open confirmation
dialog.  Tab fields are keyed by the logical tab name being selected. -/
structure World where
  labButtons : Nat → List String
  dialogButtons : Nat → List String
  tabClickable : String → Nat → Bool
  tabSelected : String → Nat → Bool
  newMarker : Nat → Bool
  oldMarker : Nat → Bool
  trustarcFrame : Nat → Bool
  trustarcAgree : Nat → Bool
  siteReady : Nat → Bool
  openConsole : Nat → Bool
  adjVisible : String → Nat → Bool
  adjClickable : String → Nat → Bool
  autostopText : Nat → Option String
  baseUrlConfigured : Bool

/-- The computation monad: a function of the page oracle and the state. -/
def M (α : Type) : Type := World → St → Res α

def M.pure {α : Type} (a : α) : M α := fun _ s => ⟨.ok a, s, []⟩

def M.bind {α β : Type} (m : M α) (f : α → M β) : M β := fun w s =>
  let r := m w s
  match r.out with
  | .error e => ⟨.error e, r.st, r.tr⟩
  | .ok a =>
      let r2 := f a w r.st
      ⟨r2.out, r2.st, r.tr ++ r2.tr⟩

instance : Monad M where
  pure := M.pure
  bind := M.bind

theorem run_bind {α β : Type} (m : M α) (f : α → M β) (w : World) (s : St) :
    (m >>= f) w s = M.bind m f w s := rfl

theorem run_pure {α : Type} (a : α) (w : World) (s : St) :
    (Pure.pure (f := M) a) w s = ⟨.ok a, s, []⟩ := rfl

theorem bindB_eq {α β : Type} (m : M α) (f : α → M β) :
    Bind.bind m f = M.bind m f := rfl

theorem pureP_eq {α : Type} (a : α) : Pure.pure (f := M) a = M.pure a := rfl

/-- `try body except: handler` — the handler receives the raised error. -/
def attempt {α : Type} (m : M α) (h : Err → M α) : M α := fun w s =>
  let r := m w s
  match r.out with
  | .ok _ => r
  | .error e =>
      let r2 := h e w r.st
      ⟨r2.out, r2.st, r.tr ++ r2.tr⟩

/-- `try body except TimeoutException: handler` — other errors propagate. -/
def attemptTimeout {α : Type} (m : M α) (h : String → M α) : M α :=
  attempt m (fun e =>
    match e with
    | .timeout msg => h msg
    | .other msg => fun _ s => ⟨.error (.other msg), s, []⟩)

def throwErr {α : Type} (e : Err) : M α := fun _ s => ⟨.error e, s, []⟩

def emit (e : Ev) : M Unit := fun _ s => ⟨.ok (), s, [e]⟩

def logStep (m : String) : M Unit := emit (.step m)

def logInfo (m : String) : M Unit := emit (.info m)

def logWarn (m : String) : M Unit := emit (.warn m)

def logError (m : String) : M Unit := emit (.err m)

def logDebug (m : String) : M Unit := emit (.debug m)

def sleep (n : Nat) : M Unit := fun _ s => ⟨.ok (), { s with time := s.time + n }, []⟩

def getIface : M (Option String) := fun _ s => ⟨.ok s.iface, s, []⟩

def setIface (i : String) : M Unit := fun _ s => ⟨.ok (), { s with iface := some i }, []⟩

def askWorldTime {α : Type} (f : World → Nat → α) : M α := fun w s => ⟨.ok (f w s.time), s, []⟩

/-- First tick `t'` in the window `[t, t+k]` with `cond t' = true`. -/
def waitFrom (cond : Nat → Bool) : Nat → Nat → Option Nat
  | 0, t => if cond t then some t else none
  | k + 1, t => if cond t then some t else waitFrom cond k (t + 1)

/-- `WebDriverWait(driver, bound).until(cond, message=msg)`: advance the clock
to the first tick satisfying `cond`, or raise `TimeoutException` after the
bound.  Emits a `.waited tag` event marking that a DOM wait was performed. -/
def waitUntilW (tag : String) (bound : Nat) (cond : World → Nat → Bool) (msg : String) :
    M Unit := fun w s =>
  match waitFrom (cond w) bound s.time with
  | some t' => ⟨.ok (), { s with time := t' }, [.waited tag]⟩
  | none => ⟨.error (.timeout msg), { s with time := s.time + bound }, [.waited tag]⟩

/-- `pat` is a leading segment of `l` (Python `str.startswith` on chars). -/
def charsLead : List Char → List Char → Bool
  | [], _ => true
  | _ :: _, [] => false
  | p :: ps, c :: cs => p = c && charsLead ps cs

/-- `pat` occurs contiguously inside `l` (Python `pat in l`). -/
def charsIn : List Char → List Char → Bool
  | pat, [] => charsLead pat []
  | pat, c :: cs => charsLead pat (c :: cs) || charsIn pat cs

/-- Python's `pat in s` substring test. -/
def strHas (s pat : String) : Bool := charsIn pat.toList s.toList

def upChar (c : Char) : Char :=
  if 97 ≤ c.toNat ∧ c.toNat ≤ 122 then Char.ofNat (c.toNat - 32) else c

def lowChar (c : Char) : Char :=
  if 65 ≤ c.toNat ∧ c.toNat ≤ 90 then Char.ofNat (c.toNat + 32) else c

/-- `str.upper()` (ASCII, which is all the button labels use). -/
def strUpper (s : String) : String := String.mk (s.toList.map upChar)

/-- `str.lower()` (ASCII). -/
def strLower (s : String) : String := String.mk (s.toList.map lowChar)

def isWS (c : Char) : Bool :=
  c.toNat = 32 || c.toNat = 9 || c.toNat = 10 || c.toNat = 13

def dropLeadWS : List Char → List Char
  | [] => []
  | c :: cs => if isWS c then dropLeadWS cs else c :: cs

/-- `str.strip()`. -/
def strTrim (s : String) : String :=
  String.mk (dropLeadWS (dropLeadWS s.toList.reverse).reverse)

/-- `text.strip().upper()`. -/
def normText (s : String) : String := strUpper (strTrim s)

/-- `first_button.text.strip().upper() if first_button.text else None`. -/
def textOpt (s : String) : Option String :=
  if s = "" then none else some (normText s)

/-- The probing XPath's text filter:
`contains(text(), "Creat") or contains(text(), "Delet") or
 contains(text(), "Start") or contains(text(), "Stop")`. -/
def matchesFilter (s : String) : Bool :=
  strHas s "Creat" || strHas s "Delet" || strHas s "Start" || strHas s "Stop"

/-- The action buttons the probing XPath matches at tick `t`, in DOM order. -/
def labBtns (w : World) (t : Nat) : List String :=
  (w.labButtons t).filter matchesFilter

/-- Result of `_get_lab_buttons_by_position`: raw first/second matched button
(the element handle, represented by its raw text) and normalized texts. -/
structure Btns where
  first : Option String
  firstText : Option String
  second : Option String
  secondText : Option String
deriving Repr, DecidableEq

/-- What `_get_lab_buttons_by_position` reads once the buttons are located. -/
def btnsAt (w : World) (t : Nat) : Btns :=
  let bs := labBtns w t
  { first := bs[0]?
    firstText := bs[0]?.bind textOpt
    second := bs[1]?
    secondText := bs[1]?.bind textOpt }

def firstTextAt (w : World) (t : Nat) : Option String := (btnsAt w t).firstText

def secondTextAt (w : World) (t : Nat) : Option String := (btnsAt w t).secondText

/-- Python `self._get_lab_buttons_by_position()[1] in xs` (None is never in). -/
def firstIn (w : World) (t : Nat) (xs : List String) : Bool :=
  match firstTextAt w t with
  | some ft => xs.contains ft
  | none => false

/-- Python `self._get_lab_buttons_by_position()[3] in xs`. -/
def secondIn (w : World) (t : Nat) (xs : List String) : Bool :=
  match secondTextAt w t with
  | some ft => xs.contains ft
  | none => false

def readBtnsNow : M Btns := fun w s => ⟨.ok (btnsAt w s.time), s, []⟩

/-- `_get_lab_buttons_by_position(timeout)`: wait (bounded) for at least one
button matching the filter, read first and second; on timeout, or on any
other exception, all components are None. -/
def getLabButtonsByPosition (timeout : Nat) : M Btns := do
  let b ← attempt
    (do
      waitUntilW "lab-buttons" timeout (fun w t => !(labBtns w t).isEmpty)
        "lab buttons not located"
      readBtnsNow)
    (fun e =>
      match e with
      | .timeout _ => M.pure ⟨none, none, none, none⟩
      | .other msg => do
          logDebug ("Error getting lab buttons by position: " ++ msg)
          M.pure ⟨none, none, none, none⟩)
  emit .probed
  M.pure b

/-- Position-restricted branch of `_get_lab_action_button`: probe by
position, then keep the button only if its normalized text is truthy and
contains one of the uppercased action texts. -/
def actionFromBtns (actionTexts : List String) (position : String) (b : Btns) :
    Option String × Option String :=
  if position = "first" then
    match b.firstText with
    | some ft =>
        if ft ≠ "" ∧ actionTexts.any (fun t => strHas ft (strUpper t)) then
          (b.first, some ft)
        else (none, none)
    | none => (none, none)
  else
    match b.secondText with
    | some st =>
        if st ≠ "" ∧ actionTexts.any (fun t => strHas st (strUpper t)) then
          (b.second, some st)
        else (none, none)
    | none => (none, none)

/-- Text-search fallback of `_get_lab_action_button` (position is None): for
each action text in order, wait (bounded) for a button whose raw text
contains it, returning the first hit. -/
def actionByTextSearch (timeout : Nat) : List String → M (Option String × Option String)
  | [] => M.pure (none, none)
  | text :: rest =>
      attemptTimeout
        (do
          waitUntilW "action-btn-text" timeout
            (fun w t => ((w.labButtons t).find? (fun b => strHas b text)).isSome)
            "action button not found"
          askWorldTime (fun w t =>
            match (w.labButtons t).find? (fun b => strHas b text) with
            | some b => (some b, textOpt b)
            | none => (none, none)))
        (fun _ => actionByTextSearch timeout rest)

/-- `_get_lab_action_button(action_texts, timeout=1, position=None)`. -/
def getLabActionButton (actionTexts : List String) (timeout : Nat)
    (position : Option String) : M (Option String × Option String) :=
  if position = some "first" ∨ position = some "second" then do
    let b ← getLabButtonsByPosition timeout
    M.pure (actionFromBtns actionTexts (position.getD "first") b)
  else
    actionByTextSearch timeout actionTexts

/-- `_detect_interface_type`: memoized; try the new-interface marker (bounded
by the driver's default 10s wait), then the old-interface `progress-map`
marker, defaulting to `new`; never raises. -/
def detectInterfaceType : M String := do
  let c ← getIface
  match c with
  | some i => M.pure i
  | none =>
      attempt
        (do
          waitUntilW "new-marker" 10 (fun w t => w.newMarker t) "new marker not found"
          setIface "new"
          logStep "Detected interface type: NEW (PF5)"
          M.pure "new")
        (fun _ =>
          attempt
            (do
              waitUntilW "old-marker" 10 (fun w t => w.oldMarker t) "old marker not found"
              setIface "old"
              logStep "Detected interface type: OLD"
              M.pure "old")
            (fun _ => do
              setIface "new"
              logStep "Could not detect interface type, defaulting to NEW"
              M.pure "new"))

/-- `reset_interface_detection`. -/
def resetInterfaceDetection : M Unit := fun _ s => ⟨.ok (), { s with iface := none }, []⟩

/-- `BaseSeleniumDriver.accept_trustarc_cookies`: attempt to dismiss the
TrustArc consent dialog; every failure is swallowed. -/
def acceptTrustarcCookies (timeout : Nat) : M Unit := do
  emit .cookies
  attempt
    (do
      waitUntilW "trustarc-frame" timeout (fun w t => w.trustarcFrame t)
        "TrustArc iframe not found"
      waitUntilW "trustarc-agree" 10 (fun w t => w.trustarcAgree t)
        "TrustArc agree button not found"
      sleep 1)
    (fun _ => M.pure ())

/-- The `tab_selectors` dict: logical tab name to (old id, new label). -/
def tabSelectors (tab : String) : Option (String × String) :=
  if tab = "index" then some ("1", "Course")
  else if tab = "course" then some ("2", "Course")
  else if tab = "lab-environment" then some ("8", "Lab Environment")
  else none

/-- `_select_tab_new_interface`: wait (20s) for the tab to be clickable,
click, wait (20s) until `aria-selected="true"`; a timeout anywhere raises a
plain `Exception`. -/
def selectTabNewInterface (tabName : String) : M Unit :=
  attemptTimeout
    (do
      waitUntilW "tab-clickable" 20 (fun w t => w.tabClickable tabName t)
        "tab not clickable"
      emit (.clickTab tabName)
      waitUntilW "tab-selected" 20 (fun w t => w.tabSelected tabName t)
        ("Tab " ++ tabName ++ " did not become selected.")
      sleep 1)
    (fun _ => throwErr (.other ("Could not select tab " ++ tabName ++ " in new interface")))

/-- `_select_tab_old_interface`: first attempt with the driver's default 10s
waits; on `TimeoutException`, dismiss the cookie consent, pause, and retry
exactly once; a failing retry raises a plain `Exception`. -/
def selectTabOldInterface (tabName : String) : M Unit :=
  attemptTimeout
    (do
      waitUntilW "tab-clickable" 10 (fun w t => w.tabClickable tabName t)
        "tab not clickable"
      emit (.clickTab tabName)
      waitUntilW "tab-selected" 10 (fun w t => w.tabSelected tabName t)
        ("Tab " ++ tabName ++ " did not become selected.")
      sleep 1)
    (fun _ => do
      acceptTrustarcCookies 10
      sleep 1
      attempt
        (do
          waitUntilW "tab-clickable" 10 (fun w t => w.tabClickable tabName t)
            "tab not clickable"
          emit (.clickTab tabName)
          waitUntilW "tab-selected" 10 (fun w t => w.tabSelected tabName t)
            "tab did not become selected")
        (fun _ => throwErr (.other ("Could not select tab " ++ tabName ++ " in old interface"))))

/-- `select_lab_environment_tab`: resolve the logical tab name (raising
`ValueError` when unknown), detect the interface, and dispatch to the
matching variant.  Emits `.selectedTab` on successful return. -/
def selectLabEnvironmentTab (tabName : String) : M Unit := do
  match tabSelectors (strLower tabName) with
  | some _ => do
      let iface ← detectInterfaceType
      if iface = "new" then selectTabNewInterface tabName
      else selectTabOldInterface tabName
      emit (.selectedTab tabName)
  | none => throwErr (.other ("Invalid tab name: " ++ tabName))

/-- `wait_for_site_to_be_ready`: dismiss cookies and wait (bounded) for the
environment's ready indicator; on timeout, retry once; every failure is
logged and swallowed — this method never raises. -/
def waitForSiteToBeReady (timeout : Nat) : M Unit := do
  logStep "Waiting for site to be ready..."
  attempt
    (do
      acceptTrustarcCookies 10
      waitUntilW "site-ready" timeout (fun w t => w.siteReady t) "site not ready")
    (fun e =>
      match e with
      | .timeout _ => do
          logStep "First attempt timed out, retrying..."
          sleep 1
          attempt
            (do
              acceptTrustarcCookies 10
              waitUntilW "site-ready" timeout (fun w t => w.siteReady t) "site not ready"
              logStep "Site ready on retry")
            (fun e2 =>
              match e2 with
              | .timeout _ => logWarn "Site ready check FAILED"
              | .other _ => logWarn "Site ready check retry error")
      | .other _ => logWarn "Site ready check error")

/-- `go_to_course`: raise `ValueError` when the environment's base URL is not
configured, else navigate (`go_to_url` sleeps 2s) and wait for readiness. -/
def goToCourse (courseId : String) (environment : String) : M Unit := do
  logStep ("Navigating to course: " ++ courseId ++ " in " ++ environment)
  let ok ← askWorldTime (fun w _ => w.baseUrlConfigured)
  if ok then do
    emit .goToUrl
    sleep 2
    waitForSiteToBeReady 10
  else
    throwErr (.other ("Base URL for environment " ++ environment ++ " not configured."))

/-- `check_lab_status`: select the lab-environment tab, then probe the first
and second action buttons (5s bound) and return their normalized texts. -/
def checkLabStatus : M (Option String × Option String) := do
  selectLabEnvironmentTab "lab-environment"
  let b ← getLabButtonsByPosition 5
  logDebug "Lab status read"
  M.pure (b.firstText, b.secondText)

/-- `create_lab`: click the first button only when its text is exactly
`CREATE`, then wait (60s) until the first button reads one of
`CREATING`/`DELETE`/`DELETING`; otherwise log that the button is
unavailable.  A failure inside the `try` block is logged and re-raised. -/
def createLab (courseId : String) : M Unit := do
  emit (.op "create" courseId)
  selectLabEnvironmentTab "lab-environment"
  attempt
    (do
      let r ← getLabActionButton ["Create"] 1 (some "first")
      if r.1.isSome ∧ r.2 = some "CREATE" then do
        emit (.click 1 (r.1.getD ""))
        waitUntilW "create-transition" 60
          (fun w t => firstIn w t ["CREATING", "DELETE", "DELETING"])
          "Lab did not appear to start creating or finish creating."
        logStep "Lab creation initiated"
      else
        logStep "Create button not available")
    (fun e => do
      logError ("Failed to create lab " ++ courseId)
      throwErr e)

/-- `start_lab`: click the second button only when its text is exactly
`START`, then wait (60s) until the second button reads one of
`STARTING`/`STOP`/`STOPPING`; when the second button is already
`STOP`/`STOPPING` log an informational already-running message, otherwise a
warning.  A failure inside the `try` block is logged and re-raised. -/
def startLab (courseId : String) : M Unit := do
  emit (.op "start" courseId)
  selectLabEnvironmentTab "lab-environment"
  attempt
    (do
      let r ← getLabActionButton ["Start"] 1 (some "second")
      if r.1.isSome ∧ r.2 = some "START" then do
        emit (.click 2 (r.1.getD ""))
        sleep 2
        waitUntilW "start-transition" 60
          (fun w t => secondIn w t ["STARTING", "STOP", "STOPPING"])
          "Lab did not appear to start."
        logStep "Lab start initiated"
      else do
        let b ← getLabButtonsByPosition 3
        if b.secondText = some "STOP" ∨ b.secondText = some "STOPPING" then
          logInfo ("Lab already running for " ++ courseId ++ ".")
        else
          logWarn "Start button not available")
    (fun e => do
      logError ("Failed to start lab " ++ courseId)
      throwErr e)

/-- Click the confirmation-dialog button whose visible text contains `pat`
(the `//*[@role="dialog"]//*[@type="button"][contains(text(), pat)]` wait,
driver default 10s bound). -/
def confirmDialog (pat : String) : M Unit := do
  waitUntilW "dialog-confirm" 10
    (fun w t => ((w.dialogButtons t).find? (fun b => strHas b pat)).isSome)
    "confirm button not clickable"
  fun w s =>
    match (w.dialogButtons s.time).find? (fun b => strHas b pat) with
    | some b => ⟨.ok (), s, [.clickConfirm b]⟩
    | none => ⟨.error (.other "confirm button vanished"), s, []⟩

/-- `delete_lab`: click the first button only when its text is exactly
`DELETE`; confirm via the dialog's Delete button; wait (120s) until the
first button reads `DELETING` or `CREATE`, and if it still reads `DELETING`
wait a further 180s until `CREATE`.  When the first button is `CREATE` the
call is a logged no-op.  A failure inside the `try` is logged, re-raised. -/
def deleteLab (courseId : String) : M Unit := do
  emit (.op "delete" courseId)
  selectLabEnvironmentTab "lab-environment"
  attempt
    (do
      let r ← getLabActionButton ["Delete"] 1 (some "first")
      if r.1.isSome ∧ r.2 = some "DELETE" then do
        emit (.click 1 (r.1.getD ""))
        confirmDialog "Delete"
        sleep 2
        waitUntilW "delete-transition" 120
          (fun w t => firstIn w t ["DELETING", "CREATE"])
          "Lab deletion did not initiate."
        let b ← getLabButtonsByPosition 3
        if b.firstText = some "DELETING" then do
          waitUntilW "delete-finish" 180
            (fun w t => firstIn w t ["CREATE"])
            "Lab did not finish deleting."
          logStep "Lab deleted successfully"
        else
          logStep "Lab deleted successfully"
      else do
        let b ← getLabButtonsByPosition 3
        if b.firstText = some "CREATE" then
          logInfo ("No lab to delete for " ++ courseId ++ " (lab does not exist).")
        else
          logError ("Delete button not found for " ++ courseId))
    (fun e => do
      logError ("Failed to delete lab " ++ courseId)
      throwErr e)

/-- `is_lab_running`: select the tab, probe, and report whether the second
button reads `STOP`, `STOPPING` or `STARTING`; any exception yields a
logged `False`. -/
def isLabRunning : M Bool :=
  attempt
    (do
      selectLabEnvironmentTab "lab-environment"
      let pq ← checkLabStatus
      logDebug "Lab running check"
      M.pure (decide (pq.2 = some "STOP" ∨ pq.2 = some "STOPPING" ∨ pq.2 = some "STARTING")))
    (fun _ => do
      logWarn "Could not determine if lab is running"
      M.pure false)

/-- Leading maximal digit run of `cs` (empty when `cs` does not start with a
digit). -/
def isDigitC (c : Char) : Bool := 48 ≤ c.toNat && c.toNat ≤ 57

def digitsLead : List Char → List Char
  | [] => []
  | c :: cs => if isDigitC c then c :: digitsLead cs else []

/-- First digit run in `cs`, as `re.search(r"(\d+)", text)` would find it. -/
def firstDigitRun : List Char → Option (List Char)
  | [] => none
  | c :: cs => if isDigitC c then some (digitsLead (c :: cs)) else firstDigitRun cs

def digitsToNat (cs : List Char) : Nat :=
  cs.foldl (fun a c => a * 10 + (c.toNat - 48)) 0

/-- `get_autostop_hours_remaining`: read the auto-stop `<time>` element text
("in an hour" means 1, else the first integer in the text); any failure or
unparsable text yields 0. -/
def getAutostopHoursRemaining : M Nat :=
  attempt
    (do
      selectLabEnvironmentTab "lab-environment"
      sleep 1
      waitUntilW "autostop-time" 30 (fun w t => (w.autostopText t).isSome)
        "auto-stop time element not found"
      let txt ← askWorldTime (fun w t => strLower ((w.autostopText t).getD ""))
      if strHas txt "an hour" then M.pure 1
      else
        match firstDigitRun txt.toList with
        | some run => M.pure (digitsToNat run)
        | none => M.pure 0)
    (fun _ => do
      logWarn "Could not determine auto-stop time"
      M.pure 0)

def clickAdjTimes (row : String) : Nat → M Unit
  | 0 => M.pure ()
  | n + 1 => do
      emit (.clickAdj row)
      sleep 1
      clickAdjTimes row n

/-- `_click_lab_adjustment_button`: select the tab (outside the `try`), wait
(300s) for the Open Console button, locate the adjustment button in the
given table row and click it the requested number of times; timeouts are
logged, every other failure inside the `try` is silently swallowed. -/
def clickLabAdjustmentButton (courseId row : String) (times : Nat)
    (description : String) : M Unit := do
  logStep (description ++ " for course " ++ courseId)
  selectLabEnvironmentTab "lab-environment"
  attempt
    (do
      waitUntilW "open-console" 300 (fun w t => w.openConsole t)
        "Open Console button not present"
      sleep 1
      waitUntilW "adj-visible" 3 (fun w t => w.adjVisible row t)
        "adjustment button not visible"
      waitUntilW "adj-clickable" 10 (fun w t => w.adjClickable row t)
        "adjustment button not clickable"
      clickAdjTimes row times)
    (fun e =>
      match e with
      | .timeout _ => logError ("Timeout finding " ++ description ++ " button for " ++ courseId)
      | .other _ => M.pure ())

/-- `increase_autostop`: add hours up to the 2-hour cap (no-op when already
there). -/
def increaseAutostop (courseId : String) (maxHours : Nat) : M Unit := do
  let current ← getAutostopHoursRemaining
  let toAdd := maxHours - current
  if toAdd = 0 then
    logStep "Auto-stop already at max, no increase needed"
  else
    clickLabAdjustmentButton courseId "1" toAdd "Increasing auto-stop"

/-- `increase_lifespan`: 14 clicks on the lifespan row. -/
def increaseLifespan (courseId : String) (times : Nat) : M Unit :=
  clickLabAdjustmentButton courseId "2" times "Increasing auto-destroy (lifespan) to max"

/-- Shared tail of `recreate_lab`: the two post-provisioning adjustments and
the final log line. -/
def recreateTail (courseId : String) : M Unit := do
  increaseAutostop courseId 2
  increaseLifespan courseId 14
  logStep ("Lab " ++ courseId ++ " recreate sequence finished.")

/-- `recreate_lab`: navigate to the course, probe the status and dispatch:
`CREATE` creates; `DELETE` deletes, waits (180s) for `CREATE`, creates;
`CREATING` waits (300s) for `DELETE`/`CREATE` then recurses, returning
before the adjustment tail; `DELETING` waits (300s) for `CREATE` then
creates; anything else logs a warning and falls back to best-effort
delete-then-create, swallowing a failure of the delete.  The source
recursion is unbounded; `fuel` makes it structurally total and is consumed
only at the recursive call of the `CREATING` branch. -/
def recreateLab : Nat → String → String → M Unit
  | 0, _, _ => throwErr (.other "recursion fuel exhausted")
  | fuel + 1, courseId, environment => do
      emit (.op "recreate" courseId)
      goToCourse courseId environment
      selectLabEnvironmentTab "lab-environment"
      let pq ← checkLabStatus
      logStep "Current lab status"
      if pq.1 = some "CREATE" then do
        createLab courseId
        recreateTail courseId
      else if pq.1 = some "DELETE" then do
        deleteLab courseId
        waitUntilW "recreate-wait-create" 180 (fun w t => firstIn w t ["CREATE"])
          "Create button not available after delete."
        createLab courseId
        recreateTail courseId
      else if pq.1 = some "CREATING" then do
        logStep "Lab is currently creating, waiting for completion..."
        waitUntilW "recreate-wait-stable" 300 (fun w t => firstIn w t ["DELETE", "CREATE"])
          "Lab did not finish creating."
        recreateLab fuel courseId environment
      else if pq.1 = some "DELETING" then do
        logStep "Lab is currently deleting, waiting for completion..."
        waitUntilW "recreate-wait-deleted" 300 (fun w t => firstIn w t ["CREATE"])
          "Lab did not finish deleting."
        createLab courseId
        recreateTail courseId
      else do
        logWarn "Unexpected lab status. Attempting fallback delete+create."
        attempt
          (do
            deleteLab courseId
            waitUntilW "recreate-wait-create" 180 (fun w t => firstIn w t ["CREATE"])
              "Create button not available after delete.")
          (fun _ => logError "Delete failed during recreate")
        createLab courseId
        recreateTail courseId

/-! ### Basic lemmas about waits and traces -/

theorem waitFrom_some (cond : Nat → Bool) (k t t' : Nat)
    (h : waitFrom cond k t = some t') :
    cond t' = true ∧ t ≤ t' ∧ t' ≤ t + k := by
  induction k generalizing t with
  | zero =>
      unfold waitFrom at h
      by_cases hc : cond t
      · simp [hc] at h
        subst h
        exact ⟨hc, le_refl t, Nat.le_add_right t 0⟩
      · simp [hc] at h
  | succ n ih =>
      unfold waitFrom at h
      by_cases hc : cond t
      · simp [hc] at h
        subst h
        exact ⟨hc, le_refl t, Nat.le_add_right t (n + 1)⟩
      · simp [hc] at h
        obtain ⟨h1, h2, h3⟩ := ih (t + 1) h
        exact ⟨h1, Nat.le_of_succ_le h2, by omega⟩

theorem waitFrom_none (cond : Nat → Bool) (k t : Nat)
    (h : waitFrom cond k t = none) (t' : Nat) (h1 : t ≤ t') (h2 : t' ≤ t + k) :
    cond t' = false := by
  induction k generalizing t with
  | zero =>
      unfold waitFrom at h
      by_cases hc : cond t
      · simp [hc] at h
      · have : t' = t := by omega
        simpa [this] using hc
  | succ n ih =>
      unfold waitFrom at h
      by_cases hc : cond t
      · simp [hc] at h
      · simp [hc] at h
        rcases Nat.eq_or_lt_of_le h1 with rfl | hlt
        · simpa using hc
        · exact ih (t + 1) h hlt (by omega)

/-- All events a computation can emit satisfy `P`, over every oracle and
state. -/
def TrAll (P : Ev → Prop) {α : Type} (m : M α) : Prop :=
  ∀ w s, ∀ e ∈ (m w s).tr, P e

theorem trAll_bind {P : Ev → Prop} {α β : Type} {m : M α} {f : α → M β}
    (hm : TrAll P m) (hf : ∀ a, TrAll P (f a)) : TrAll P (m >>= f) := by
  intro w s e he
  have : (m >>= f) w s = M.bind m f w s := rfl
  rw [this] at he
  unfold M.bind at he
  rcases hout : (m w s).out with er | a <;> simp only [hout] at he
  · exact hm w s e he
  · simp only [List.mem_append] at he
    rcases he with h | h
    · exact hm w s e h
    · exact hf a w (m w s).st e h

theorem trAll_attempt {P : Ev → Prop} {α : Type} {m : M α} {h : Err → M α}
    (hm : TrAll P m) (hh : ∀ er, TrAll P (h er)) : TrAll P (attempt m h) := by
  intro w s e he
  unfold attempt at he
  rcases hout : (m w s).out with er | a <;> simp only [hout] at he
  · simp only [List.mem_append] at he
    rcases he with h1 | h1
    · exact hm w s e h1
    · exact hh er w (m w s).st e h1
  · exact hm w s e he

theorem trAll_attemptTimeout {P : Ev → Prop} {α : Type} {m : M α} {h : String → M α}
    (hm : TrAll P m) (hh : ∀ msg, TrAll P (h msg)) : TrAll P (attemptTimeout m h) := by
  unfold attemptTimeout
  refine trAll_attempt hm ?_
  intro er
  match er with
  | .timeout msg => exact hh msg
  | .other msg => intro w s e he; simp at he

theorem trAll_pure {P : Ev → Prop} {α : Type} (a : α) : TrAll P (M.pure a) := by
  intro w s e he
  simp [M.pure] at he

theorem trAll_purePure {P : Ev → Prop} {α : Type} (a : α) :
    TrAll P (Pure.pure (f := M) a) := trAll_pure a

theorem trAll_throwErr {P : Ev → Prop} {α : Type} (e : Err) :
    TrAll P (throwErr (α := α) e) := by
  intro w s x hx
  simp [throwErr] at hx

theorem trAll_emit {P : Ev → Prop} {e : Ev} (h : P e) : TrAll P (emit e) := by
  intro w s x hx
  simp [emit] at hx
  simpa [hx] using h

theorem trAll_sleep {P : Ev → Prop} (n : Nat) : TrAll P (sleep n) := by
  intro w s x hx
  simp [sleep] at hx

theorem trAll_getIface {P : Ev → Prop} : TrAll P getIface := by
  intro w s x hx
  simp [getIface] at hx

theorem trAll_setIface {P : Ev → Prop} (i : String) : TrAll P (setIface i) := by
  intro w s x hx
  simp [setIface] at hx

theorem trAll_askWorldTime {P : Ev → Prop} {α : Type} (f : World → Nat → α) :
    TrAll P (askWorldTime f) := by
  intro w s x hx
  simp [askWorldTime] at hx

theorem trAll_readBtnsNow {P : Ev → Prop} : TrAll P readBtnsNow := by
  intro w s x hx
  simp [readBtnsNow] at hx

theorem trAll_waitUntilW {P : Ev → Prop} {tag : String} (h : P (.waited tag))
    (bound : Nat) (cond : World → Nat → Bool) (msg : String) :
    TrAll P (waitUntilW tag bound cond msg) := by
  intro w s x hx
  unfold waitUntilW at hx
  rcases hw : waitFrom (cond w) bound s.time with _ | t' <;> simp [hw] at hx <;>
    simpa [hx] using h

theorem trAll_ite {P : Ev → Prop} {α : Type} {c : Prop} [Decidable c] {m m' : M α}
    (h1 : TrAll P m) (h2 : TrAll P m') : TrAll P (if c then m else m') := by
  by_cases hc : c
  · rw [if_pos hc]; exact h1
  · rw [if_neg hc]; exact h2

theorem trAll_logStep {P : Ev → Prop} {m : String} (h : P (.step m)) :
    TrAll P (logStep m) := trAll_emit h

theorem trAll_logInfo {P : Ev → Prop} {m : String} (h : P (.info m)) :
    TrAll P (logInfo m) := trAll_emit h

theorem trAll_logWarn {P : Ev → Prop} {m : String} (h : P (.warn m)) :
    TrAll P (logWarn m) := trAll_emit h

theorem trAll_logError {P : Ev → Prop} {m : String} (h : P (.err m)) :
    TrAll P (logError m) := trAll_emit h

theorem trAll_logDebug {P : Ev → Prop} {m : String} (h : P (.debug m)) :
    TrAll P (logDebug m) := trAll_emit h

/-- Hypothesis bundle: `P` holds for every event a non-orchestrator helper
can emit.  `waits` restricts the `.waited` tags that must satisfy `P`. -/
def WaitsOK (P : Ev → Prop) (tags : List String) : Prop :=
  ∀ tag ∈ tags, P (.waited tag)

theorem trAll_detectInterfaceType {P : Ev → Prop}
    (hw : WaitsOK P ["new-marker", "old-marker"]) (hs : ∀ m, P (.step m)) :
    TrAll P detectInterfaceType := by
  unfold detectInterfaceType
  refine trAll_bind trAll_getIface ?_
  intro c
  match c with
  | some i => exact trAll_pure i
  | none =>
      refine trAll_attempt ?_ ?_
      · refine trAll_bind (trAll_waitUntilW (hw _ (by simp)) _ _ _) ?_
        intro _
        refine trAll_bind (trAll_setIface _) ?_
        intro _
        exact trAll_bind (trAll_logStep (hs _)) fun _ => trAll_pure _
      · intro _
        refine trAll_attempt ?_ ?_
        · refine trAll_bind (trAll_waitUntilW (hw _ (by simp)) _ _ _) ?_
          intro _
          refine trAll_bind (trAll_setIface _) ?_
          intro _
          exact trAll_bind (trAll_logStep (hs _)) fun _ => trAll_pure _
        · intro _
          refine trAll_bind (trAll_setIface _) ?_
          intro _
          exact trAll_bind (trAll_logStep (hs _)) fun _ => trAll_pure _

theorem trAll_acceptTrustarcCookies {P : Ev → Prop}
    (hc : P .cookies) (hw : WaitsOK P ["trustarc-frame", "trustarc-agree"])
    (timeout : Nat) : TrAll P (acceptTrustarcCookies timeout) := by
  unfold acceptTrustarcCookies
  refine trAll_bind (trAll_emit hc) ?_
  intro _
  refine trAll_attempt ?_ ?_
  · refine trAll_bind (trAll_waitUntilW (hw _ (by simp)) _ _ _) ?_
    intro _
    exact trAll_bind (trAll_waitUntilW (hw _ (by simp)) _ _ _) fun _ => trAll_sleep 1
  · intro _
    exact trAll_pure ()

theorem trAll_selectTabNewInterface {P : Ev → Prop}
    (hw : WaitsOK P ["tab-clickable", "tab-selected"])
    (hct : ∀ n, P (.clickTab n)) (tabName : String) :
    TrAll P (selectTabNewInterface tabName) := by
  unfold selectTabNewInterface
  refine trAll_attemptTimeout ?_ fun _ => trAll_throwErr _
  refine trAll_bind (trAll_waitUntilW (hw _ (by simp)) _ _ _) ?_
  intro _
  refine trAll_bind (trAll_emit (hct _)) ?_
  intro _
  exact trAll_bind (trAll_waitUntilW (hw _ (by simp)) _ _ _) fun _ => trAll_sleep 1

theorem trAll_selectTabOldInterface {P : Ev → Prop}
    (hw : WaitsOK P ["tab-clickable", "tab-selected", "trustarc-frame", "trustarc-agree"])
    (hct : ∀ n, P (.clickTab n)) (hc : P .cookies) (tabName : String) :
    TrAll P (selectTabOldInterface tabName) := by
  unfold selectTabOldInterface
  refine trAll_attemptTimeout ?_ ?_
  · refine trAll_bind (trAll_waitUntilW (hw _ (by simp)) _ _ _) ?_
    intro _
    refine trAll_bind (trAll_emit (hct _)) ?_
    intro _
    exact trAll_bind (trAll_waitUntilW (hw _ (by simp)) _ _ _) fun _ => trAll_sleep 1
  · intro _
    refine trAll_bind (trAll_acceptTrustarcCookies hc (fun t ht => hw t (by simp at ht ⊢; tauto)) 10) ?_
    intro _
    refine trAll_bind (trAll_sleep 1) ?_
    intro _
    refine trAll_attempt ?_ fun _ => trAll_throwErr _
    refine trAll_bind (trAll_waitUntilW (hw _ (by simp)) _ _ _) ?_
    intro _
    refine trAll_bind (trAll_emit (hct _)) ?_
    intro _
    exact trAll_waitUntilW (hw _ (by simp)) _ _ _

theorem trAll_selectLabEnvironmentTab {P : Ev → Prop}
    (hw : WaitsOK P ["new-marker", "old-marker", "tab-clickable", "tab-selected",
      "trustarc-frame", "trustarc-agree"])
    (hs : ∀ m, P (.step m)) (hct : ∀ n, P (.clickTab n)) (hc : P .cookies)
    (hsel : ∀ n, P (.selectedTab n)) (tabName : String) :
    TrAll P (selectLabEnvironmentTab tabName) := by
  unfold selectLabEnvironmentTab
  match tabSelectors (strLower tabName) with
  | none => exact trAll_throwErr _
  | some cfg =>
      refine trAll_bind (trAll_detectInterfaceType (fun t ht => hw t (by simp at ht ⊢; tauto)) hs) ?_
      intro iface
      exact trAll_ite
        (trAll_bind (trAll_selectTabNewInterface (fun t ht => hw t (by simp at ht ⊢; tauto)) hct _)
          fun _ => trAll_emit (hsel _))
        (trAll_bind (trAll_selectTabOldInterface (fun t ht => hw t (by simp at ht ⊢; tauto)) hct hc _)
          fun _ => trAll_emit (hsel _))

theorem trAll_getLabButtonsByPosition {P : Ev → Prop}
    (hw : WaitsOK P ["lab-buttons"]) (hp : P .probed) (hd : ∀ m, P (.debug m))
    (timeout : Nat) : TrAll P (getLabButtonsByPosition timeout) := by
  unfold getLabButtonsByPosition
  refine trAll_bind ?_ ?_
  · refine trAll_attempt ?_ ?_
    · exact trAll_bind (trAll_waitUntilW (hw _ (by simp)) _ _ _) fun _ => trAll_readBtnsNow
    · intro er
      match er with
      | .timeout msg => exact trAll_pure _
      | .other msg => exact trAll_bind (trAll_logDebug (hd _)) fun _ => trAll_pure _
  · intro b
    exact trAll_bind (trAll_emit hp) fun _ => trAll_pure _

theorem trAll_actionByTextSearch {P : Ev → Prop}
    (hw : WaitsOK P ["action-btn-text"]) (timeout : Nat) (texts : List String) :
    TrAll P (actionByTextSearch timeout texts) := by
  induction texts with
  | nil => exact trAll_pure _
  | cons t rest ih =>
      unfold actionByTextSearch
      refine trAll_attemptTimeout ?_ fun _ => ih
      exact trAll_bind (trAll_waitUntilW (hw _ (by simp)) _ _ _) fun _ => trAll_askWorldTime _

theorem trAll_getLabActionButton {P : Ev → Prop}
    (hw : WaitsOK P ["lab-buttons", "action-btn-text"]) (hp : P .probed)
    (hd : ∀ m, P (.debug m)) (actionTexts : List String) (timeout : Nat)
    (position : Option String) : TrAll P (getLabActionButton actionTexts timeout position) := by
  unfold getLabActionButton
  by_cases hpos : position = some "first" ∨ position = some "second"
  · rw [if_pos hpos]
    refine trAll_bind (trAll_getLabButtonsByPosition (fun t ht => hw t (by simp at ht ⊢; tauto)) hp hd _) ?_
    intro b
    exact trAll_pure _
  · rw [if_neg hpos]
    exact trAll_actionByTextSearch (fun t ht => hw t (by simp at ht ⊢; tauto)) _ _

theorem trAll_confirmDialog {P : Ev → Prop}
    (hw : WaitsOK P ["dialog-confirm"]) (hcc : ∀ t, P (.clickConfirm t))
    (pat : String) : TrAll P (confirmDialog pat) := by
  unfold confirmDialog
  refine trAll_bind (trAll_waitUntilW (hw _ (by simp)) _ _ _) ?_
  intro _ w s e he
  rcases hfind : (w.dialogButtons s.time).find? (fun b => strHas b pat) with _ | b <;>
    simp [hfind] at he
  simpa [he] using hcc b

theorem trAll_waitForSiteToBeReady {P : Ev → Prop}
    (hw : WaitsOK P ["trustarc-frame", "trustarc-agree", "site-ready"])
    (hs : ∀ m, P (.step m)) (hc : P .cookies) (hwarn : ∀ m, P (.warn m))
    (timeout : Nat) : TrAll P (waitForSiteToBeReady timeout) := by
  unfold waitForSiteToBeReady
  refine trAll_bind (trAll_logStep (hs _)) ?_
  intro _
  refine trAll_attempt ?_ ?_
  · refine trAll_bind (trAll_acceptTrustarcCookies hc (fun t ht => hw t (by simp at ht ⊢; tauto)) 10) ?_
    intro _
    exact trAll_waitUntilW (hw _ (by simp)) _ _ _
  · intro er
    match er with
    | .timeout _ =>
        refine trAll_bind (trAll_logStep (hs _)) ?_
        intro _
        refine trAll_bind (trAll_sleep 1) ?_
        intro _
        refine trAll_attempt ?_ ?_
        · refine trAll_bind (trAll_acceptTrustarcCookies hc (fun t ht => hw t (by simp at ht ⊢; tauto)) 10) ?_
          intro _
          refine trAll_bind (trAll_waitUntilW (hw _ (by simp)) _ _ _) ?_
          intro _
          exact trAll_logStep (hs _)
        · intro er2
          match er2 with
          | .timeout _ => exact trAll_logWarn (hwarn _)
          | .other _ => exact trAll_logWarn (hwarn _)
    | .other _ => exact trAll_logWarn (hwarn _)

theorem trAll_goToCourse {P : Ev → Prop}
    (hw : WaitsOK P ["trustarc-frame", "trustarc-agree", "site-ready"])
    (hs : ∀ m, P (.step m)) (hc : P .cookies) (hwarn : ∀ m, P (.warn m))
    (hg : P .goToUrl) (courseId environment : String) :
    TrAll P (goToCourse courseId environment) := by
  unfold goToCourse
  refine trAll_bind (trAll_logStep (hs _)) ?_
  intro _
  refine trAll_bind (trAll_askWorldTime _) ?_
  intro ok
  by_cases hok : ok = true <;> simp [hok]
  · refine trAll_bind (trAll_emit hg) ?_
    intro _
    refine trAll_bind (trAll_sleep 2) ?_
    intro _
    exact trAll_waitForSiteToBeReady hw hs hc hwarn 10
  · exact trAll_throwErr _

/-- The wait tags used by `select_lab_environment_tab` and its callees. -/
def selectTags : List String :=
  ["new-marker", "old-marker", "tab-clickable", "tab-selected",
   "trustarc-frame", "trustarc-agree"]

theorem trAll_checkLabStatus {P : Ev → Prop}
    (hw : WaitsOK P (selectTags ++ ["lab-buttons"]))
    (hs : ∀ m, P (.step m)) (hct : ∀ n, P (.clickTab n)) (hc : P .cookies)
    (hsel : ∀ n, P (.selectedTab n)) (hp : P .probed) (hd : ∀ m, P (.debug m)) :
    TrAll P checkLabStatus := by
  unfold checkLabStatus
  refine trAll_bind (trAll_selectLabEnvironmentTab (fun t ht => hw t (by simp [selectTags] at ht ⊢; tauto)) hs hct hc hsel _) ?_
  intro _
  refine trAll_bind (trAll_getLabButtonsByPosition (fun t ht => hw t (by simp [selectTags] at ht ⊢; tauto)) hp hd _) ?_
  intro b
  exact trAll_bind (trAll_logDebug (hd _)) fun _ => trAll_pure _

theorem trAll_createLab {P : Ev → Prop}
    (hw : WaitsOK P (selectTags ++ ["lab-buttons", "action-btn-text", "create-transition"]))
    (hs : ∀ m, P (.step m)) (hct : ∀ n, P (.clickTab n)) (hc : P .cookies)
    (hsel : ∀ n, P (.selectedTab n)) (hp : P .probed) (hd : ∀ m, P (.debug m))
    (hop : ∀ c, P (.op "create" c)) (hclick : ∀ p x, P (.click p x))
    (herr : ∀ m, P (.err m)) (courseId : String) : TrAll P (createLab courseId) := by
  unfold createLab
  refine trAll_bind (trAll_emit (hop _)) ?_
  intro _
  refine trAll_bind (trAll_selectLabEnvironmentTab (fun t ht => hw t (by simp [selectTags] at ht ⊢; tauto)) hs hct hc hsel _) ?_
  intro _
  refine trAll_attempt ?_ ?_
  · refine trAll_bind (trAll_getLabActionButton (fun t ht => hw t (by simp [selectTags] at ht ⊢; tauto)) hp hd _ _ _) ?_
    intro r
    refine trAll_ite ?_ (trAll_logStep (hs _))
    refine trAll_bind (trAll_emit (hclick _ _)) ?_
    intro _
    refine trAll_bind (trAll_waitUntilW (hw _ (by simp [selectTags])) _ _ _) ?_
    intro _
    exact trAll_logStep (hs _)
  · intro e
    exact trAll_bind (trAll_logError (herr _)) fun _ => trAll_throwErr _

theorem trAll_startLab {P : Ev → Prop}
    (hw : WaitsOK P (selectTags ++ ["lab-buttons", "action-btn-text", "start-transition"]))
    (hs : ∀ m, P (.step m)) (hct : ∀ n, P (.clickTab n)) (hc : P .cookies)
    (hsel : ∀ n, P (.selectedTab n)) (hp : P .probed) (hd : ∀ m, P (.debug m))
    (hop : ∀ c, P (.op "start" c)) (hclick : ∀ p x, P (.click p x))
    (herr : ∀ m, P (.err m)) (hi : ∀ m, P (.info m)) (hwarn : ∀ m, P (.warn m))
    (courseId : String) : TrAll P (startLab courseId) := by
  unfold startLab
  refine trAll_bind (trAll_emit (hop _)) ?_
  intro _
  refine trAll_bind (trAll_selectLabEnvironmentTab (fun t ht => hw t (by simp [selectTags] at ht ⊢; tauto)) hs hct hc hsel _) ?_
  intro _
  refine trAll_attempt ?_ ?_
  · refine trAll_bind (trAll_getLabActionButton (fun t ht => hw t (by simp [selectTags] at ht ⊢; tauto)) hp hd _ _ _) ?_
    intro r
    refine trAll_ite ?_ ?_
    · refine trAll_bind (trAll_emit (hclick _ _)) ?_
      intro _
      refine trAll_bind (trAll_sleep 2) ?_
      intro _
      refine trAll_bind (trAll_waitUntilW (hw _ (by simp [selectTags])) _ _ _) ?_
      intro _
      exact trAll_logStep (hs _)
    · refine trAll_bind (trAll_getLabButtonsByPosition (fun t ht => hw t (by simp [selectTags] at ht ⊢; tauto)) hp hd _) ?_
      intro b
      exact trAll_ite (trAll_logInfo (hi _)) (trAll_logWarn (hwarn _))
  · intro e
    exact trAll_bind (trAll_logError (herr _)) fun _ => trAll_throwErr _

theorem trAll_deleteLab {P : Ev → Prop}
    (hw : WaitsOK P (selectTags ++ ["lab-buttons", "action-btn-text", "dialog-confirm",
      "delete-transition", "delete-finish"]))
    (hs : ∀ m, P (.step m)) (hct : ∀ n, P (.clickTab n)) (hc : P .cookies)
    (hsel : ∀ n, P (.selectedTab n)) (hp : P .probed) (hd : ∀ m, P (.debug m))
    (hop : ∀ c, P (.op "delete" c)) (hclick : ∀ p x, P (.click p x))
    (hcc : ∀ t, P (.clickConfirm t)) (herr : ∀ m, P (.err m)) (hi : ∀ m, P (.info m))
    (courseId : String) : TrAll P (deleteLab courseId) := by
  unfold deleteLab
  refine trAll_bind (trAll_emit (hop _)) ?_
  intro _
  refine trAll_bind (trAll_selectLabEnvironmentTab (fun t ht => hw t (by simp [selectTags] at ht ⊢; tauto)) hs hct hc hsel _) ?_
  intro _
  refine trAll_attempt ?_ ?_
  · refine trAll_bind (trAll_getLabActionButton (fun t ht => hw t (by simp [selectTags] at ht ⊢; tauto)) hp hd _ _ _) ?_
    intro r
    refine trAll_ite ?_ ?_
    · refine trAll_bind (trAll_emit (hclick _ _)) ?_
      intro _
      refine trAll_bind (trAll_confirmDialog (fun t ht => hw t (by simp [selectTags] at ht ⊢; tauto)) hcc _) ?_
      intro _
      refine trAll_bind (trAll_sleep 2) ?_
      intro _
      refine trAll_bind (trAll_waitUntilW (hw _ (by simp [selectTags])) _ _ _) ?_
      intro _
      refine trAll_bind (trAll_getLabButtonsByPosition (fun t ht => hw t (by simp [selectTags] at ht ⊢; tauto)) hp hd _) ?_
      intro b
      refine trAll_ite ?_ (trAll_logStep (hs _))
      refine trAll_bind (trAll_waitUntilW (hw _ (by simp [selectTags])) _ _ _) ?_
      intro _
      exact trAll_logStep (hs _)
    · refine trAll_bind (trAll_getLabButtonsByPosition (fun t ht => hw t (by simp [selectTags] at ht ⊢; tauto)) hp hd _) ?_
      intro b
      exact trAll_ite (trAll_logInfo (hi _)) (trAll_logError (herr _))
  · intro e
    exact trAll_bind (trAll_logError (herr _)) fun _ => trAll_throwErr _

theorem trAll_getAutostopHoursRemaining {P : Ev → Prop}
    (hw : WaitsOK P (selectTags ++ ["autostop-time"]))
    (hs : ∀ m, P (.step m)) (hct : ∀ n, P (.clickTab n)) (hc : P .cookies)
    (hsel : ∀ n, P (.selectedTab n)) (hwarn : ∀ m, P (.warn m)) :
    TrAll P getAutostopHoursRemaining := by
  unfold getAutostopHoursRemaining
  refine trAll_attempt ?_ ?_
  · refine trAll_bind (trAll_selectLabEnvironmentTab (fun t ht => hw t (by simp [selectTags] at ht ⊢; tauto)) hs hct hc hsel _) ?_
    intro _
    refine trAll_bind (trAll_sleep 1) ?_
    intro _
    refine trAll_bind (trAll_waitUntilW (hw _ (by simp [selectTags])) _ _ _) ?_
    intro _
    refine trAll_bind (trAll_askWorldTime _) ?_
    intro txt
    refine trAll_ite (trAll_pure _) ?_
    match firstDigitRun txt.toList with
    | some run => exact trAll_pure _
    | none => exact trAll_pure _
  · intro _
    exact trAll_bind (trAll_logWarn (hwarn _)) fun _ => trAll_pure _

theorem trAll_clickAdjTimes {P : Ev → Prop} (ha : ∀ r, P (.clickAdj r))
    (row : String) (n : Nat) : TrAll P (clickAdjTimes row n) := by
  induction n with
  | zero => exact trAll_pure _
  | succ k ih =>
      unfold clickAdjTimes
      refine trAll_bind (trAll_emit (ha _)) ?_
      intro _
      exact trAll_bind (trAll_sleep 1) fun _ => ih

theorem trAll_clickLabAdjustmentButton {P : Ev → Prop}
    (hw : WaitsOK P (selectTags ++ ["open-console", "adj-visible", "adj-clickable"]))
    (hs : ∀ m, P (.step m)) (hct : ∀ n, P (.clickTab n)) (hc : P .cookies)
    (hsel : ∀ n, P (.selectedTab n)) (ha : ∀ r, P (.clickAdj r)) (herr : ∀ m, P (.err m))
    (courseId row : String) (times : Nat) (description : String) :
    TrAll P (clickLabAdjustmentButton courseId row times description) := by
  unfold clickLabAdjustmentButton
  refine trAll_bind (trAll_logStep (hs _)) ?_
  intro _
  refine trAll_bind (trAll_selectLabEnvironmentTab (fun t ht => hw t (by simp [selectTags] at ht ⊢; tauto)) hs hct hc hsel _) ?_
  intro _
  refine trAll_attempt ?_ ?_
  · refine trAll_bind (trAll_waitUntilW (hw _ (by simp [selectTags])) _ _ _) ?_
    intro _
    refine trAll_bind (trAll_sleep 1) ?_
    intro _
    refine trAll_bind (trAll_waitUntilW (hw _ (by simp [selectTags])) _ _ _) ?_
    intro _
    refine trAll_bind (trAll_waitUntilW (hw _ (by simp [selectTags])) _ _ _) ?_
    intro _
    exact trAll_clickAdjTimes ha _ _
  · intro er
    match er with
    | .timeout _ => exact trAll_logError (herr _)
    | .other _ => exact trAll_pure _

/-- The wait tags any helper below the recreate orchestrator can use. -/
def helperTags : List String :=
  selectTags ++ ["lab-buttons", "action-btn-text", "dialog-confirm", "site-ready",
    "create-transition", "start-transition", "delete-transition", "delete-finish",
    "autostop-time", "open-console", "adj-visible", "adj-clickable"]

theorem trAll_increaseAutostop {P : Ev → Prop}
    (hw : WaitsOK P helperTags)
    (hs : ∀ m, P (.step m)) (hct : ∀ n, P (.clickTab n)) (hc : P .cookies)
    (hsel : ∀ n, P (.selectedTab n)) (ha : ∀ r, P (.clickAdj r)) (herr : ∀ m, P (.err m))
    (hwarn : ∀ m, P (.warn m)) (courseId : String) (maxHours : Nat) :
    TrAll P (increaseAutostop courseId maxHours) := by
  unfold increaseAutostop
  refine trAll_bind (trAll_getAutostopHoursRemaining (fun t ht => hw t (by simp [helperTags, selectTags] at ht ⊢; tauto)) hs hct hc hsel hwarn) ?_
  intro current
  exact trAll_ite (trAll_logStep (hs _))
    (trAll_clickLabAdjustmentButton (fun t ht => hw t (by simp [helperTags, selectTags] at ht ⊢; tauto)) hs hct hc hsel ha herr _ _ _ _)

theorem trAll_recreateTail {P : Ev → Prop}
    (hw : WaitsOK P helperTags)
    (hs : ∀ m, P (.step m)) (hct : ∀ n, P (.clickTab n)) (hc : P .cookies)
    (hsel : ∀ n, P (.selectedTab n)) (ha : ∀ r, P (.clickAdj r)) (herr : ∀ m, P (.err m))
    (hwarn : ∀ m, P (.warn m)) (courseId : String) : TrAll P (recreateTail courseId) := by
  unfold recreateTail
  refine trAll_bind (trAll_increaseAutostop hw hs hct hc hsel ha herr hwarn _ _) ?_
  intro _
  refine trAll_bind ?_ fun _ => trAll_logStep (hs _)
  exact trAll_clickLabAdjustmentButton (fun t ht => hw t (by simp [helperTags, selectTags] at ht ⊢; tauto)) hs hct hc hsel ha herr _ _ _ _

/-! ### Run characterizations -/

theorem bind_run {α β : Type} {m : M α} {f : α → M β} {w : World} {s : St} {a : α}
    (h : (m w s).out = .ok a) :
    M.bind m f w s =
      ⟨(f a w (m w s).st).out, (f a w (m w s).st).st, (m w s).tr ++ (f a w (m w s).st).tr⟩ := by
  unfold M.bind
  simp only [h]

theorem bind_fail {α β : Type} {m : M α} {f : α → M β} {w : World} {s : St} {e : Err}
    (h : (m w s).out = .error e) :
    M.bind m f w s = ⟨.error e, (m w s).st, (m w s).tr⟩ := by
  unfold M.bind
  simp only [h]

theorem bindH_run {α β : Type} {m : M α} {f : α → M β} {w : World} {s : St} {a : α}
    (h : (m w s).out = .ok a) :
    (m >>= f) w s =
      ⟨(f a w (m w s).st).out, (f a w (m w s).st).st, (m w s).tr ++ (f a w (m w s).st).tr⟩ :=
  bind_run h

theorem bindH_fail {α β : Type} {m : M α} {f : α → M β} {w : World} {s : St} {e : Err}
    (h : (m w s).out = .error e) :
    (m >>= f) w s = ⟨.error e, (m w s).st, (m w s).tr⟩ :=
  bind_fail h

theorem attempt_run {α : Type} {m : M α} {h : Err → M α} {w : World} {s : St} {a : α}
    (hm : (m w s).out = .ok a) : attempt m h w s = m w s := by
  unfold attempt
  simp only [hm]

theorem attempt_fail {α : Type} {m : M α} {h : Err → M α} {w : World} {s : St} {e : Err}
    (hm : (m w s).out = .error e) :
    attempt m h w s =
      ⟨(h e w (m w s).st).out, (h e w (m w s).st).st, (m w s).tr ++ (h e w (m w s).st).tr⟩ := by
  unfold attempt
  simp only [hm]

theorem matchesFilter_empty : matchesFilter "" = false := by decide

theorem labBtns_textOpt (w : World) (t i : Nat) :
    ((labBtns w t)[i]?).bind textOpt = ((labBtns w t)[i]?).map normText := by
  rcases h : (labBtns w t)[i]? with _ | b
  · rfl
  · have hb : b ∈ labBtns w t := List.getElem?_mem h
    have hfil : matchesFilter b = true := (List.mem_filter.mp hb).2
    have hne : ¬b = "" := by
      intro h0
      rw [h0] at hfil
      exact absurd hfil (by decide)
    simp [textOpt, hne, Option.bind]

/-- One probe run: there is a tick `t` in the wait window at which the
buttons were read (on timeout the window is button-free, so the endpoint
reads the same all-`None` result). -/
theorem getLabButtonsByPosition_run (timeout : Nat) (w : World) (s : St) :
    ∃ t, s.time ≤ t ∧ t ≤ s.time + timeout ∧
      getLabButtonsByPosition timeout w s =
        ⟨.ok (btnsAt w t), ⟨t, s.iface⟩, [.waited "lab-buttons", .probed]⟩ := by
  unfold getLabButtonsByPosition
  rcases hw : waitFrom (fun t => !(labBtns w t).isEmpty) timeout s.time with _ | t'
  · refine ⟨s.time + timeout, Nat.le_add_right _ _, le_refl _, ?_⟩
    have hempty : labBtns w (s.time + timeout) = [] := by
      have := waitFrom_none _ _ _ hw (s.time + timeout) (Nat.le_add_right _ _) (le_refl _)
      simpa [List.isEmpty_iff] using this
    have hb : btnsAt w (s.time + timeout) = ⟨none, none, none, none⟩ := by
      simp [btnsAt, hempty]
    rw [hb]
    simp [bindB_eq, M.bind, attempt, waitUntilW, hw, readBtnsNow, emit, M.pure]
  · obtain ⟨hc, h1, h2⟩ := waitFrom_some _ _ _ _ hw
    refine ⟨t', h1, h2, ?_⟩
    simp [bindB_eq, M.bind, attempt, waitUntilW, hw, readBtnsNow, emit, M.pure]

theorem getLabActionButton_run (a : List String) (timeout : Nat) (pos : String)
    (hpos : pos = "first" ∨ pos = "second") (w : World) (s : St) :
    ∃ t, s.time ≤ t ∧ t ≤ s.time + timeout ∧
      getLabActionButton a timeout (some pos) w s =
        ⟨.ok (actionFromBtns a pos (btnsAt w t)), ⟨t, s.iface⟩,
          [.waited "lab-buttons", .probed]⟩ := by
  obtain ⟨t, h1, h2, hrun⟩ := getLabButtonsByPosition_run timeout w s
  refine ⟨t, h1, h2, ?_⟩
  unfold getLabActionButton
  rw [if_pos (by rcases hpos with rfl | rfl <;> simp)]
  rw [bindB_eq, bind_run (a := btnsAt w t) (by rw [hrun])]
  simp [hrun, M.pure]

/-- `_detect_interface_type` returns the cached value untouched. -/
theorem detect_cached (w : World) (s : St) (i : String) (h : s.iface = some i) :
    detectInterfaceType w s = ⟨.ok i, s, []⟩ := by
  simp [detectInterfaceType, bindB_eq, M.bind, getIface, h, M.pure]

theorem detect_new (w : World) (s : St) (h : s.iface = none) (t' : Nat)
    (hw : waitFrom w.newMarker 10 s.time = some t') :
    detectInterfaceType w s =
      ⟨.ok "new", ⟨t', some "new"⟩,
        [.waited "new-marker", .step "Detected interface type: NEW (PF5)"]⟩ := by
  simp [detectInterfaceType, bindB_eq, M.bind, getIface, h, attempt, waitUntilW, hw,
    setIface, logStep, emit, M.pure]

theorem detect_old (w : World) (s : St) (h : s.iface = none)
    (hn : waitFrom w.newMarker 10 s.time = none) (t' : Nat)
    (ho : waitFrom w.oldMarker 10 (s.time + 10) = some t') :
    detectInterfaceType w s =
      ⟨.ok "old", ⟨t', some "old"⟩,
        [.waited "new-marker", .waited "old-marker", .step "Detected interface type: OLD"]⟩ := by
  simp [detectInterfaceType, bindB_eq, M.bind, getIface, h, attempt, waitUntilW, hn, ho,
    setIface, logStep, emit, M.pure]

theorem detect_default (w : World) (s : St) (h : s.iface = none)
    (hn : waitFrom w.newMarker 10 s.time = none)
    (ho : waitFrom w.oldMarker 10 (s.time + 10) = none) :
    detectInterfaceType w s =
      ⟨.ok "new", ⟨s.time + 10 + 10, some "new"⟩,
        [.waited "new-marker", .waited "old-marker",
         .step "Could not detect interface type, defaulting to NEW"]⟩ := by
  simp [detectInterfaceType, bindB_eq, M.bind, getIface, h, attempt, waitUntilW, hn, ho,
    setIface, logStep, emit, M.pure]

/-- `_detect_interface_type` never raises. -/
theorem detect_never_fails (w : World) (s : St) :
    ∃ i, (detectInterfaceType w s).out = .ok i ∧
      (detectInterfaceType w s).st.iface = some i := by
  rcases hif : s.iface with _ | i
  · rcases hn : waitFrom w.newMarker 10 s.time with _ | t1
    · rcases ho : waitFrom w.oldMarker 10 (s.time + 10) with _ | t2
      · exact ⟨"new", by rw [detect_default w s hif hn ho]; exact ⟨rfl, rfl⟩⟩
      · exact ⟨"old", by rw [detect_old w s hif hn t2 ho]; exact ⟨rfl, rfl⟩⟩
    · exact ⟨"new", by rw [detect_new w s hif t1 hn]; exact ⟨rfl, rfl⟩⟩
  · exact ⟨i, by rw [detect_cached w s i hif]; exact ⟨rfl, hif⟩⟩

/-- `accept_trustarc_cookies` always succeeds, leaves the cache alone, and
records the dismissal attempt as the head of its trace. -/
theorem acceptTrustarcCookies_run (k : Nat) (w : World) (s : St) :
    ∃ t' tr, acceptTrustarcCookies k w s = ⟨.ok (), ⟨t', s.iface⟩, .cookies :: tr⟩ ∧
      (∀ e ∈ tr, ∃ tag, e = .waited tag) := by
  unfold acceptTrustarcCookies
  rcases hf : waitFrom w.trustarcFrame k s.time with _ | t1
  · refine ⟨s.time + k, [.waited "trustarc-frame"], ?_, ?_⟩
    · simp [bindB_eq, M.bind, emit, attempt, waitUntilW, hf, M.pure]
    · simp
  · rcases ha : waitFrom w.trustarcAgree 10 t1 with _ | t2
    · refine ⟨t1 + 10, [.waited "trustarc-frame", .waited "trustarc-agree"], ?_, ?_⟩
      · simp [bindB_eq, M.bind, emit, attempt, waitUntilW, hf, ha, M.pure]
      · simp
    · refine ⟨t2 + 1, [.waited "trustarc-frame", .waited "trustarc-agree"], ?_, ?_⟩
      · simp [bindB_eq, M.bind, emit, attempt, waitUntilW, hf, ha, M.pure, sleep]
      · simp

def isClickTab : Ev → Bool
  | .clickTab _ => true
  | _ => false

/-- One click-and-verify attempt on the targeted tab succeeds from `t0`:
the tab becomes clickable within `bound` and, from that tick, its
`aria-selected` attribute turns true within `bound`. -/
def attemptOK (w : World) (n : String) (bound t0 : Nat) : Prop :=
  ∃ t1 t2, waitFrom (w.tabClickable n) bound t0 = some t1 ∧
    waitFrom (w.tabSelected n) bound t1 = some t2

instance (w : World) (n : String) (bound t0 : Nat) : Decidable (attemptOK w n bound t0) := by
  unfold attemptOK
  rcases h1 : waitFrom (w.tabClickable n) bound t0 with _ | t1
  · exact .isFalse (by simp [h1])
  · rcases h2 : waitFrom (w.tabSelected n) bound t1 with _ | t2
    · exact .isFalse (by simp [h1, h2])
    · exact .isTrue ⟨t1, t2, rfl, h2⟩

theorem selectTabNew_ok (n : String) (w : World) (s : St) (t1 t2 : Nat)
    (h1 : waitFrom (w.tabClickable n) 20 s.time = some t1)
    (h2 : waitFrom (w.tabSelected n) 20 t1 = some t2) :
    selectTabNewInterface n w s =
      ⟨.ok (), ⟨t2 + 1, s.iface⟩,
        [.waited "tab-clickable", .clickTab n, .waited "tab-selected"]⟩ := by
  simp [selectTabNewInterface, attemptTimeout, attempt, bindB_eq, M.bind, waitUntilW,
    h1, h2, emit, sleep, throwErr, M.pure]

theorem selectTabNew_fail (n : String) (w : World) (s : St)
    (h : ¬ attemptOK w n 20 s.time) :
    (selectTabNewInterface n w s).out =
      .error (.other ("Could not select tab " ++ n ++ " in new interface")) ∧
    List.countP isClickTab (selectTabNewInterface n w s).tr ≤ 1 := by
  rcases h1 : waitFrom (w.tabClickable n) 20 s.time with _ | t1
  · constructor <;>
      simp [selectTabNewInterface, attemptTimeout, attempt, bindB_eq, M.bind, waitUntilW,
        h1, emit, sleep, throwErr, M.pure, isClickTab, List.countP_cons]
  · rcases h2 : waitFrom (w.tabSelected n) 20 t1 with _ | t2
    · constructor <;>
        simp [selectTabNewInterface, attemptTimeout, attempt, bindB_eq, M.bind, waitUntilW,
          h1, h2, emit, sleep, throwErr, M.pure, isClickTab, List.countP_cons]
    · exact absurd ⟨t1, t2, h1, h2⟩ h

theorem selectTabNew_ok_selected (n : String) (w : World) (s : St)
    (h : (selectTabNewInterface n w s).out = .ok ()) :
    ∃ t, w.tabSelected n t = true := by
  by_cases hok : attemptOK w n 20 s.time
  · obtain ⟨t1, t2, h1, h2⟩ := hok
    exact ⟨t2, (waitFrom_some _ _ _ _ h2).1⟩
  · rw [(selectTabNew_fail n w s hok).1] at h
    exact absurd h (by simp)

theorem selectTabOld_ok (n : String) (w : World) (s : St) (t1 t2 : Nat)
    (h1 : waitFrom (w.tabClickable n) 10 s.time = some t1)
    (h2 : waitFrom (w.tabSelected n) 10 t1 = some t2) :
    selectTabOldInterface n w s =
      ⟨.ok (), ⟨t2 + 1, s.iface⟩,
        [.waited "tab-clickable", .clickTab n, .waited "tab-selected"]⟩ := by
  simp [selectTabOldInterface, attemptTimeout, attempt, bindB_eq, M.bind, waitUntilW,
    h1, h2, emit, sleep, throwErr, M.pure]

theorem selectTabOld_fail (n : String) (w : World) (s : St)
    (h : ¬ attemptOK w n 10 s.time) :
    .cookies ∈ (selectTabOldInterface n w s).tr ∧
    List.countP isClickTab (selectTabOldInterface n w s).tr ≤ 2 ∧
    ((selectTabOldInterface n w s).out = .ok () ∧ (∃ t, w.tabSelected n t = true) ∨
      (selectTabOldInterface n w s).out =
        .error (.other ("Could not select tab " ++ n ++ " in old interface"))) := by
  rcases h1 : waitFrom (w.tabClickable n) 10 s.time with _ | t1
  · obtain ⟨tC, trC, hck, htrC⟩ := acceptTrustarcCookies_run 10 w ⟨s.time + 10, s.iface⟩
    have hcount : trC.countP isClickTab = 0 :=
      List.countP_eq_zero.mpr fun e he => by
        obtain ⟨tag, rfl⟩ := htrC e he
        simp [isClickTab]
    rcases r1 : waitFrom (w.tabClickable n) 10 (tC + 1) with _ | u1
    · refine ⟨?_, ?_, Or.inr ?_⟩ <;>
        simp [selectTabOldInterface, attemptTimeout, attempt, bindB_eq, M.bind, waitUntilW,
          h1, hck, r1, emit, sleep, throwErr, M.pure, isClickTab, List.countP_append,
          List.countP_cons, hcount]
    · rcases r2 : waitFrom (w.tabSelected n) 10 u1 with _ | u2
      · refine ⟨?_, ?_, Or.inr ?_⟩ <;>
          simp [selectTabOldInterface, attemptTimeout, attempt, bindB_eq, M.bind, waitUntilW,
            h1, hck, r1, r2, emit, sleep, throwErr, M.pure, isClickTab, List.countP_append,
            List.countP_cons, hcount]
      · refine ⟨?_, ?_, Or.inl ⟨?_, ⟨u2, (waitFrom_some _ _ _ _ r2).1⟩⟩⟩ <;>
          simp [selectTabOldInterface, attemptTimeout, attempt, bindB_eq, M.bind, waitUntilW,
            h1, hck, r1, r2, emit, sleep, throwErr, M.pure, isClickTab, List.countP_append,
            List.countP_cons, hcount]
  · rcases h2 : waitFrom (w.tabSelected n) 10 t1 with _ | t2
    · obtain ⟨tC, trC, hck, htrC⟩ := acceptTrustarcCookies_run 10 w ⟨t1 + 10, s.iface⟩
      have hcount : trC.countP isClickTab = 0 :=
        List.countP_eq_zero.mpr fun e he => by
          obtain ⟨tag, rfl⟩ := htrC e he
          simp [isClickTab]
      rcases r1 : waitFrom (w.tabClickable n) 10 (tC + 1) with _ | u1
      · refine ⟨?_, ?_, Or.inr ?_⟩ <;>
          simp [selectTabOldInterface, attemptTimeout, attempt, bindB_eq, M.bind, waitUntilW,
            h1, h2, hck, r1, emit, sleep, throwErr, M.pure, isClickTab, List.countP_append,
            List.countP_cons, hcount]
      · rcases r2 : waitFrom (w.tabSelected n) 10 u1 with _ | u2
        · refine ⟨?_, ?_, Or.inr ?_⟩ <;>
            simp [selectTabOldInterface, attemptTimeout, attempt, bindB_eq, M.bind, waitUntilW,
              h1, h2, hck, r1, r2, emit, sleep, throwErr, M.pure, isClickTab, List.countP_append,
              List.countP_cons, hcount]
        · refine ⟨?_, ?_, Or.inl ⟨?_, ⟨u2, (waitFrom_some _ _ _ _ r2).1⟩⟩⟩ <;>
            simp [selectTabOldInterface, attemptTimeout, attempt, bindB_eq, M.bind, waitUntilW,
              h1, h2, hck, r1, r2, emit, sleep, throwErr, M.pure, isClickTab, List.countP_append,
              List.countP_cons, hcount]
    · exact absurd ⟨t1, t2, h1, h2⟩ h

theorem selectTabOld_ok_selected (n : String) (w : World) (s : St)
    (h : (selectTabOldInterface n w s).out = .ok ()) :
    ∃ t, w.tabSelected n t = true := by
  by_cases hok : attemptOK w n 10 s.time
  · obtain ⟨t1, t2, h1, h2⟩ := hok
    exact ⟨t2, (waitFrom_some _ _ _ _ h2).1⟩
  · rcases (selectTabOld_fail n w s hok).2.2 with ⟨_, ht⟩ | hbad
    · exact ht
    · rw [hbad] at h
      exact absurd h (by simp)

/-- Successful tab selection implies the targeted tab was observed with
`aria-selected="true"` at some tick, whichever interface variant ran. -/
theorem select_ok_selected (n : String) (w : World) (s : St)
    (h : (selectLabEnvironmentTab n w s).out = .ok ()) :
    ∃ t, w.tabSelected n t = true := by
  unfold selectLabEnvironmentTab at h
  rcases hcfg : tabSelectors (strLower n) with _ | cfg
  · rw [hcfg] at h
    simp [throwErr] at h
  · rw [hcfg] at h
    simp only [] at h
    obtain ⟨i, hdo, hdst⟩ := detect_never_fails w s
    rw [bindB_eq, bind_run hdo] at h
    simp only [] at h
    by_cases hi : i = "new"
    · rw [if_pos hi] at h
      rcases hv : selectTabNewInterface n w (detectInterfaceType w s).st with ⟨vo, vst, vtr⟩
      rcases vo with e | u
      · have hvo : (selectTabNewInterface n w (detectInterfaceType w s).st).out = .error e := by
          rw [hv]
        rw [bindH_fail hvo] at h
        simp at h
      · exact selectTabNew_ok_selected n w _ (by rw [hv])
    · rw [if_neg hi] at h
      rcases hv : selectTabOldInterface n w (detectInterfaceType w s).st with ⟨vo, vst, vtr⟩
      rcases vo with e | u
      · have hvo : (selectTabOldInterface n w (detectInterfaceType w s).st).out = .error e := by
          rw [hv]
        rw [bindH_fail hvo] at h
        simp at h
      · exact selectTabOld_ok_selected n w _ (by rw [hv])

/-- A successful tab selection ends its trace with the `.selectedTab` mark. -/
theorem select_ok_shape (n : String) (w : World) (s : St)
    (h : (selectLabEnvironmentTab n w s).out = .ok ()) :
    ∃ pre, (selectLabEnvironmentTab n w s).tr = pre ++ [.selectedTab n] := by
  unfold selectLabEnvironmentTab at h ⊢
  rcases hcfg : tabSelectors (strLower n) with _ | cfg
  · rw [hcfg] at h
    simp [throwErr] at h
  · rw [hcfg] at h
    simp only [] at h ⊢
    obtain ⟨i, hdo, hdst⟩ := detect_never_fails w s
    rw [bindH_run hdo] at h ⊢
    simp only [] at h ⊢
    by_cases hi : i = "new"
    · rw [if_pos hi] at h ⊢
      rcases hv : selectTabNewInterface n w (detectInterfaceType w s).st with ⟨vo, vst, vtr⟩
      rcases vo with e | u
      · have hvo : (selectTabNewInterface n w (detectInterfaceType w s).st).out = .error e := by
          rw [hv]
        rw [bindH_fail hvo] at h
        simp at h
      · have hvo : (selectTabNewInterface n w (detectInterfaceType w s).st).out = .ok u := by
          rw [hv]
        rw [bindH_run hvo]
        simp only [emit]
        exact ⟨(detectInterfaceType w s).tr ++ (selectTabNewInterface n w (detectInterfaceType w s).st).tr,
          (List.append_assoc _ _ _).symm⟩
    · rw [if_neg hi] at h ⊢
      rcases hv : selectTabOldInterface n w (detectInterfaceType w s).st with ⟨vo, vst, vtr⟩
      rcases vo with e | u
      · have hvo : (selectTabOldInterface n w (detectInterfaceType w s).st).out = .error e := by
          rw [hv]
        rw [bindH_fail hvo] at h
        simp at h
      · have hvo : (selectTabOldInterface n w (detectInterfaceType w s).st).out = .ok u := by
          rw [hv]
        rw [bindH_run hvo]
        simp only [emit]
        exact ⟨(detectInterfaceType w s).tr ++ (selectTabOldInterface n w (detectInterfaceType w s).st).tr,
          (List.append_assoc _ _ _).symm⟩

/-! ### Concrete oracles used to instantiate theorems with hypotheses -/

/-- A healthy new-interface page whose lab panel shows a single Create
button forever. -/
def wCreate : World :=
  { labButtons := fun _ => ["Create"]
    dialogButtons := fun _ => []
    tabClickable := fun _ _ => true
    tabSelected := fun _ _ => true
    newMarker := fun _ => true
    oldMarker := fun _ => false
    trustarcFrame := fun _ => false
    trustarcAgree := fun _ => false
    siteReady := fun _ => true
    openConsole := fun _ => false
    adjVisible := fun _ _ => false
    adjClickable := fun _ _ => false
    autostopText := fun _ => none
    baseUrlConfigured := true }

/-- The initial manager state: clock at zero, no interface cached. -/
def st0 : St := ⟨0, none⟩

/-! ### Claim theorems -/

/-- C1: every `check_lab_status` probe first selects the lab-environment tab
(the `.selectedTab` mark precedes every `.probed` mark in the trace), and
the returned pair is the uppercase-normalized text of the first and second
filtered action buttons at the tick the probe read the DOM, each component
being `None` exactly when the corresponding button does not exist. -/
theorem checkLabStatus_selects_tab_then_reports_normalized_pair
    (w : World) (s : St) (p q : Option String)
    (h : (checkLabStatus w s).out = .ok (p, q)) :
    (∃ i : Nat, (checkLabStatus w s).tr[i]? = some (.selectedTab "lab-environment") ∧
      ∀ j : Nat, (checkLabStatus w s).tr[j]? = some .probed → i < j) ∧
    ∃ t : Nat, p = ((labBtns w t)[0]?).map normText ∧ q = ((labBtns w t)[1]?).map normText := by
  rcases hout : (selectLabEnvironmentTab "lab-environment" w s).out with e | u
  · unfold checkLabStatus at h
    rw [bindH_fail hout] at h
    simp at h
  · obtain ⟨t, ht1, ht2, hrun⟩ :=
      getLabButtonsByPosition_run 5 w (selectLabEnvironmentTab "lab-environment" w s).st
    have hbo : (getLabButtonsByPosition 5 w
        (selectLabEnvironmentTab "lab-environment" w s).st).out = .ok (btnsAt w t) := by
      rw [hrun]
    have hch : checkLabStatus w s =
        ⟨.ok ((btnsAt w t).firstText, (btnsAt w t).secondText),
         ⟨t, (selectLabEnvironmentTab "lab-environment" w s).st.iface⟩,
         (selectLabEnvironmentTab "lab-environment" w s).tr ++
           [.waited "lab-buttons", .probed, .debug "Lab status read"]⟩ := by
      unfold checkLabStatus
      rw [bindH_run hout, bindH_run hbo]
      simp [hrun, logDebug, emit, bindB_eq, M.bind, pureP_eq, M.pure]
    rw [hch] at h
    simp only [Except.ok.injEq, Prod.mk.injEq] at h
    obtain ⟨hp, hq⟩ := h
    constructor
    · obtain ⟨pre, hpre⟩ := select_ok_shape "lab-environment" w s hout
      have hnp : ∀ e ∈ (selectLabEnvironmentTab "lab-environment" w s).tr, e ≠ Ev.probed :=
        trAll_selectLabEnvironmentTab (P := fun e => e ≠ Ev.probed)
          (by intro tag _; simp) (by intro m; simp) (by intro nn; simp) (by simp)
          (by intro nn; simp) "lab-environment" w s
      refine ⟨pre.length, ?_, ?_⟩
      · simp only [hch, hpre]
        rw [List.getElem?_append_left (by simp)]
        exact List.getElem?_concat_length pre (Ev.selectedTab "lab-environment")
      · intro j hj
        by_contra hle
        push_neg at hle
        simp only [hch, hpre] at hj
        have hjlt : j < (pre ++ [Ev.selectedTab "lab-environment"]).length := by
          simp only [List.length_append, List.length_cons, List.length_nil]
          omega
        rw [List.getElem?_append_left hjlt] at hj
        have hmem : Ev.probed ∈ pre ++ [Ev.selectedTab "lab-environment"] :=
          List.getElem?_mem hj
        rw [← hpre] at hmem
        exact hnp _ hmem rfl
    · refine ⟨t, ?_, ?_⟩
      · rw [← hp]
        show (labBtns w t)[0]?.bind textOpt = _
        exact labBtns_textOpt w t 0
      · rw [← hq]
        show (labBtns w t)[1]?.bind textOpt = _
        exact labBtns_textOpt w t 1

/-- C1 witness: on the single-Create-button page the probe succeeds with
`(some "CREATE", none)` and the theorem applies. -/
theorem checkLabStatus_selects_tab_then_reports_normalized_pair_witness :
    (checkLabStatus wCreate st0).out = .ok (some "CREATE", none) ∧
    ((∃ i : Nat, (checkLabStatus wCreate st0).tr[i]? = some (.selectedTab "lab-environment") ∧
        ∀ j : Nat, (checkLabStatus wCreate st0).tr[j]? = some .probed → i < j) ∧
      ∃ t : Nat, (some "CREATE" : Option String) = ((labBtns wCreate t)[0]?).map normText ∧
        (none : Option String) = ((labBtns wCreate t)[1]?).map normText) :=
  ⟨by decide,
   checkLabStatus_selects_tab_then_reports_normalized_pair wCreate st0
     (some "CREATE") none (by decide)⟩

/-- C8: interface detection never raises; it yields `new` when the
new-interface marker appears within the bounded wait, `old` when that wait
times out but the `progress-map` marker appears, and defaults to `new` on a
double timeout; the result is memoized so a subsequent call returns the
cached value with no DOM access at all, and `reset_interface_detection`
clears the cache so that detection probes again. -/
theorem detectInterfaceType_detects_and_memoizes (w : World) (s : St) :
    (∃ i, (detectInterfaceType w s).out = .ok i) ∧
    (s.iface = none → waitFrom w.newMarker 10 s.time ≠ none →
      (detectInterfaceType w s).out = .ok "new") ∧
    (s.iface = none → waitFrom w.newMarker 10 s.time = none →
      waitFrom w.oldMarker 10 (s.time + 10) ≠ none →
      (detectInterfaceType w s).out = .ok "old") ∧
    (s.iface = none → waitFrom w.newMarker 10 s.time = none →
      waitFrom w.oldMarker 10 (s.time + 10) = none →
      (detectInterfaceType w s).out = .ok "new") ∧
    (∀ i, (detectInterfaceType w s).out = .ok i →
      detectInterfaceType w (detectInterfaceType w s).st =
        ⟨.ok i, (detectInterfaceType w s).st, []⟩) ∧
    (∀ s' : St, (resetInterfaceDetection w s').st.iface = none ∧
      (resetInterfaceDetection w s').st.time = s'.time) := by
  refine ⟨?_, ?_, ?_, ?_, ?_, ?_⟩
  · obtain ⟨i, hi, _⟩ := detect_never_fails w s
    exact ⟨i, hi⟩
  · intro h0 hn
    rcases hw : waitFrom w.newMarker 10 s.time with _ | t1
    · exact absurd hw hn
    · rw [detect_new w s h0 t1 hw]
  · intro h0 hn ho
    rcases hw : waitFrom w.oldMarker 10 (s.time + 10) with _ | t2
    · exact absurd hw ho
    · rw [detect_old w s h0 hn t2 hw]
  · intro h0 hn ho
    rw [detect_default w s h0 hn ho]
  · intro i hi
    obtain ⟨j, hj, hjst⟩ := detect_never_fails w s
    have : i = j := by
      rw [hi] at hj
      exact Except.ok.inj hj
    subst this
    exact detect_cached w (detectInterfaceType w s).st i hjst
  · intro s'
    exact ⟨rfl, rfl⟩

/-- C8 witness: with the new-interface marker present immediately the first
call detects `new` and the second call returns it from the cache. -/
theorem detectInterfaceType_detects_and_memoizes_witness :
    st0.iface = none ∧ waitFrom wCreate.newMarker 10 st0.time ≠ none ∧
    (detectInterfaceType wCreate st0).out = .ok "new" :=
  ⟨rfl, by decide,
   (detectInterfaceType_detects_and_memoizes wCreate st0).2.1 rfl (by decide)⟩

/-- An old-interface page whose lab tab reports `aria-selected="true"` only
from tick 25 on, so the first selection attempt times out and the
cookie-dismiss-and-retry path runs. -/
def wOldRetry : World :=
  { wCreate with
    newMarker := fun _ => false
    oldMarker := fun _ => true
    tabSelected := fun _ t => 25 ≤ t }

/-- C9: tab selection returns successfully only after the targeted tab was
observed with `aria-selected="true"`, in both interface variants; when the
old-interface first attempt fails it dismisses the cookie consent and
retries exactly once (at most two tab clicks, no retry when the first
attempt succeeds), and an exhausted retry — like a new-interface timeout —
raises a tab-selection failure instead of being swallowed. -/
theorem selectTab_converges_and_retries_once (n : String) (w : World) (s : St) :
    ((selectLabEnvironmentTab n w s).out = .ok () → ∃ t, w.tabSelected n t = true) ∧
    ((selectTabNewInterface n w s).out = .ok () → ∃ t, w.tabSelected n t = true) ∧
    (¬ attemptOK w n 20 s.time →
      (selectTabNewInterface n w s).out =
        .error (.other ("Could not select tab " ++ n ++ " in new interface"))) ∧
    ((selectTabOldInterface n w s).out = .ok () → ∃ t, w.tabSelected n t = true) ∧
    (attemptOK w n 10 s.time →
      (selectTabOldInterface n w s).out = .ok () ∧
      .cookies ∉ (selectTabOldInterface n w s).tr) ∧
    (¬ attemptOK w n 10 s.time →
      .cookies ∈ (selectTabOldInterface n w s).tr ∧
      List.countP isClickTab (selectTabOldInterface n w s).tr ≤ 2 ∧
      ((selectTabOldInterface n w s).out = .ok () ∨
        (selectTabOldInterface n w s).out =
          .error (.other ("Could not select tab " ++ n ++ " in old interface")))) := by
  refine ⟨select_ok_selected n w s, selectTabNew_ok_selected n w s, ?_,
    selectTabOld_ok_selected n w s, ?_, ?_⟩
  · intro hno
    exact (selectTabNew_fail n w s hno).1
  · intro hok
    obtain ⟨t1, t2, h1, h2⟩ := hok
    rw [selectTabOld_ok n w s t1 t2 h1 h2]
    exact ⟨rfl, by simp⟩
  · intro hno
    obtain ⟨hc, hcount, hres⟩ := selectTabOld_fail n w s hno
    refine ⟨hc, hcount, ?_⟩
    rcases hres with ⟨hok, _⟩ | herr
    · exact Or.inl hok
    · exact Or.inr herr

/-- C9 witness: on a page whose tab turns selected only at tick 25 the first
old-interface attempt times out, the cookie dismissal runs, and the single
retry succeeds. -/
theorem selectTab_converges_and_retries_once_witness :
    ¬ attemptOK wOldRetry "lab-environment" 10 st0.time ∧
    (.cookies ∈ (selectTabOldInterface "lab-environment" wOldRetry st0).tr ∧
     List.countP isClickTab (selectTabOldInterface "lab-environment" wOldRetry st0).tr ≤ 2 ∧
     ((selectTabOldInterface "lab-environment" wOldRetry st0).out = .ok () ∨
       (selectTabOldInterface "lab-environment" wOldRetry st0).out =
         .error (.other ("Could not select tab " ++ "lab-environment" ++ " in old interface")))) :=
  ⟨by decide,
   (selectTab_converges_and_retries_once "lab-environment" wOldRetry st0).2.2.2.2.2 (by decide)⟩

/-- A healthy new-interface page with a running lab: Delete and Stop
buttons. -/
def wRunning : World :=
  { wCreate with labButtons := fun _ => ["Delete", "Stop"] }

/-- C10: `is_lab_running` never raises; when the probe pipeline succeeds
with secondary status `q` it returns exactly whether `q` is `STOP`,
`STOPPING` or `STARTING`, and it returns `False` whenever any stage of the
probe pipeline raises. -/
theorem isLabRunning_reports_running_and_never_raises (w : World) (s : St) :
    (∃ b, (isLabRunning w s).out = .ok b) ∧
    (∀ e, (selectLabEnvironmentTab "lab-environment" w s).out = .error e →
      (isLabRunning w s).out = .ok false) ∧
    (∀ e, (selectLabEnvironmentTab "lab-environment" w s).out = .ok () →
      (checkLabStatus w (selectLabEnvironmentTab "lab-environment" w s).st).out = .error e →
      (isLabRunning w s).out = .ok false) ∧
    (∀ p q : Option String, (selectLabEnvironmentTab "lab-environment" w s).out = .ok () →
      (checkLabStatus w (selectLabEnvironmentTab "lab-environment" w s).st).out = .ok (p, q) →
      (isLabRunning w s).out =
        .ok (decide (q = some "STOP" ∨ q = some "STOPPING" ∨ q = some "STARTING"))) := by
  refine ⟨?_, ?_, ?_, ?_⟩
  · rcases hso : (selectLabEnvironmentTab "lab-environment" w s).out with e | u
    · exact ⟨false, by
        simp [isLabRunning, attempt, bindB_eq, M.bind, hso, logWarn, logDebug, emit,
          pureP_eq, M.pure]⟩
    · rcases hco : (checkLabStatus w (selectLabEnvironmentTab "lab-environment" w s).st).out
        with e2 | pq
      · exact ⟨false, by
          simp [isLabRunning, attempt, bindB_eq, M.bind, hso, hco, logWarn, logDebug, emit,
            pureP_eq, M.pure]⟩
      · exact ⟨decide (pq.2 = some "STOP" ∨ pq.2 = some "STOPPING" ∨ pq.2 = some "STARTING"), by
          simp only [isLabRunning, attempt, bindB_eq, M.bind, hso, hco, logWarn, logDebug, emit,
            pureP_eq, M.pure]⟩
  · intro e hso
    simp [isLabRunning, attempt, bindB_eq, M.bind, hso, logWarn, logDebug, emit,
      pureP_eq, M.pure]
  · intro e hso hco
    simp [isLabRunning, attempt, bindB_eq, M.bind, hso, hco, logWarn, logDebug, emit,
      pureP_eq, M.pure]
  · intro p q hso hco
    simp only [isLabRunning, attempt, bindB_eq, M.bind, hso, hco, logWarn, logDebug, emit,
      pureP_eq, M.pure]

/-- C10 witness: a running lab (Delete/Stop buttons) reports `True`. -/
theorem isLabRunning_reports_running_and_never_raises_witness :
    (selectLabEnvironmentTab "lab-environment" wRunning st0).out = .ok () ∧
    (checkLabStatus wRunning
      (selectLabEnvironmentTab "lab-environment" wRunning st0).st).out =
      .ok (some "DELETE", some "STOP") ∧
    (isLabRunning wRunning st0).out = .ok true :=
  ⟨by decide, by decide, by
    have := (isLabRunning_reports_running_and_never_raises wRunning st0).2.2.2
      (some "DELETE") (some "STOP") (by decide) (by decide)
    simpa using this⟩

/-- A click event in an operation trace `op :: selectTr ++ rest` must come
from `rest`: tab selection never clicks a lab action button. -/
theorem click_in_op_select_rest {w : World} {s : St} {p : Nat} {x : String}
    {n opName c : String} {rest : List Ev}
    (hnc : ∀ e ∈ (selectLabEnvironmentTab n w s).tr, ∀ p x, e ≠ Ev.click p x)
    (hmem : Ev.click p x ∈ Ev.op opName c :: (selectLabEnvironmentTab n w s).tr ++ rest) :
    Ev.click p x ∈ rest := by
  simp only [List.mem_cons, List.mem_append] at hmem
  rcases hmem with (h | h) | h
  · exact absurd h (by simp)
  · exact absurd rfl (hnc _ h p x)
  · exact h

/-- C2: `create_lab` clicks only when the positional probe returns a button
whose text is exactly `CREATE`; for every other probe outcome (other texts,
or no button at all) it performs no click, raises no exception, and logs the
button as unavailable; and whenever it did click and returned successfully,
its bounded wait observed the first button reading `CREATING`, `DELETE` or
`DELETING`. -/
theorem createLab_clicks_only_on_CREATE (c : String) (w : World) (s : St)
    (hsel : (selectLabEnvironmentTab "lab-environment" w s).out = .ok ())
    (r : Option String × Option String)
    (hprobe : (getLabActionButton ["Create"] 1 (some "first") w
      (selectLabEnvironmentTab "lab-environment" w s).st).out = .ok r) :
    (¬ (r.1.isSome ∧ r.2 = some "CREATE") →
      (createLab c w s).out = .ok () ∧
      (∀ p x, Ev.click p x ∉ (createLab c w s).tr) ∧
      .step "Create button not available" ∈ (createLab c w s).tr) ∧
    ((r.1.isSome ∧ r.2 = some "CREATE") → ∃ x, Ev.click 1 x ∈ (createLab c w s).tr) ∧
    (∀ p x, Ev.click p x ∈ (createLab c w s).tr → p = 1 ∧ r.1.isSome ∧ r.2 = some "CREATE") ∧
    ((r.1.isSome ∧ r.2 = some "CREATE") → (createLab c w s).out = .ok () →
      ∃ t2, (selectLabEnvironmentTab "lab-environment" w s).st.time ≤ t2 ∧
        t2 ≤ (selectLabEnvironmentTab "lab-environment" w s).st.time + 1 + 60 ∧
        firstIn w t2 ["CREATING", "DELETE", "DELETING"] = true) := by
  obtain ⟨t, ht1, ht2, hrun⟩ := getLabActionButton_run ["Create"] 1 "first" (Or.inl rfl) w
    (selectLabEnvironmentTab "lab-environment" w s).st
  have hr : r = actionFromBtns ["Create"] "first" (btnsAt w t) := by
    rw [hrun] at hprobe
    exact (Except.ok.inj hprobe).symm
  have hnc : ∀ e ∈ (selectLabEnvironmentTab "lab-environment" w s).tr,
      ∀ p x, e ≠ Ev.click p x :=
    trAll_selectLabEnvironmentTab (P := fun e => ∀ p x, e ≠ Ev.click p x)
      (by intro tag _ p x; simp) (by intro m p x; simp) (by intro nn p x; simp)
      (by intro p x; simp) (by intro nn p x; simp) "lab-environment" w s
  by_cases hcond : r.1.isSome ∧ r.2 = some "CREATE"
  · have hcond' : (actionFromBtns ["Create"] "first" (btnsAt w t)).1.isSome ∧
        (actionFromBtns ["Create"] "first" (btnsAt w t)).2 = some "CREATE" := hr ▸ hcond
    rcases hw60 : waitFrom (fun tt => firstIn w tt ["CREATING", "DELETE", "DELETING"]) 60 t
      with _ | t2
    · have hEq : createLab c w s =
          ⟨.error (.timeout "Lab did not appear to start creating or finish creating."),
           ⟨t + 60, (selectLabEnvironmentTab "lab-environment" w s).st.iface⟩,
           Ev.op "create" c :: (selectLabEnvironmentTab "lab-environment" w s).tr ++
             ([.waited "lab-buttons", .probed] ++
              [.click 1 ((actionFromBtns ["Create"] "first" (btnsAt w t)).1.getD ""),
               .waited "create-transition",
               .err ("Failed to create lab " ++ c)])⟩ := by
        simp only [createLab, bindB_eq, M.bind, emit, hsel, attempt, hrun, logStep, logError,
          throwErr, M.pure, pureP_eq, waitUntilW, hw60, if_pos hcond']
        simp [hsel]
      refine ⟨fun hno => absurd hcond hno, ?_, ?_, ?_⟩
      · intro _
        refine ⟨(actionFromBtns ["Create"] "first" (btnsAt w t)).1.getD "", ?_⟩
        rw [hEq]
        simp
      · intro p x hmem
        rw [hEq] at hmem
        have h1 := click_in_op_select_rest hnc hmem
        simp at h1
        exact ⟨h1.1, hcond⟩
      · intro _ hok
        rw [hEq] at hok
        simp at hok
    · obtain ⟨hcnd, hle1, hle2⟩ := waitFrom_some _ _ _ _ hw60
      have hEq : createLab c w s =
          ⟨.ok (),
           ⟨t2, (selectLabEnvironmentTab "lab-environment" w s).st.iface⟩,
           Ev.op "create" c :: (selectLabEnvironmentTab "lab-environment" w s).tr ++
             ([.waited "lab-buttons", .probed] ++
              [.click 1 ((actionFromBtns ["Create"] "first" (btnsAt w t)).1.getD ""),
               .waited "create-transition",
               .step "Lab creation initiated"])⟩ := by
        simp only [createLab, bindB_eq, M.bind, emit, hsel, attempt, hrun, logStep, logError,
          throwErr, M.pure, pureP_eq, waitUntilW, hw60, if_pos hcond']
        simp [hsel]
      refine ⟨fun hno => absurd hcond hno, ?_, ?_, ?_⟩
      · intro _
        refine ⟨(actionFromBtns ["Create"] "first" (btnsAt w t)).1.getD "", ?_⟩
        rw [hEq]
        simp
      · intro p x hmem
        rw [hEq] at hmem
        have h1 := click_in_op_select_rest hnc hmem
        simp at h1
        exact ⟨h1.1, hcond⟩
      · intro _ _
        exact ⟨t2, le_trans ht1 hle1, by omega, hcnd⟩
  · have hcond' : ¬ ((actionFromBtns ["Create"] "first" (btnsAt w t)).1.isSome ∧
        (actionFromBtns ["Create"] "first" (btnsAt w t)).2 = some "CREATE") := hr ▸ hcond
    have hEq : createLab c w s =
        ⟨.ok (),
         ⟨t, (selectLabEnvironmentTab "lab-environment" w s).st.iface⟩,
         Ev.op "create" c :: (selectLabEnvironmentTab "lab-environment" w s).tr ++
           ([.waited "lab-buttons", .probed] ++ [.step "Create button not available"])⟩ := by
      simp only [createLab, bindB_eq, M.bind, emit, hsel, attempt, hrun, logStep, logError,
        throwErr, M.pure, pureP_eq, if_neg hcond']
      simp [hsel]
    refine ⟨?_, fun hc => absurd hc hcond, ?_, fun hc => absurd hc hcond⟩
    · intro _
      refine ⟨by rw [hEq], ?_, by rw [hEq]; simp⟩
      intro p x hmem
      rw [hEq] at hmem
      have h1 := click_in_op_select_rest hnc hmem
      simp at h1
    · intro p x hmem
      rw [hEq] at hmem
      have h1 := click_in_op_select_rest hnc hmem
      simp at h1

/-- C2 witness: with a running lab (first button `Delete`) the probe returns
no Create button and `create_lab` is a logged no-op. -/
theorem createLab_clicks_only_on_CREATE_witness :
    (selectLabEnvironmentTab "lab-environment" wRunning st0).out = .ok () ∧
    (getLabActionButton ["Create"] 1 (some "first") wRunning
      (selectLabEnvironmentTab "lab-environment" wRunning st0).st).out =
      .ok ((none, none) : Option String × Option String) ∧
    ((createLab "rh124-9.3" wRunning st0).out = .ok () ∧
      (∀ p x, Ev.click p x ∉ (createLab "rh124-9.3" wRunning st0).tr) ∧
      .step "Create button not available" ∈ (createLab "rh124-9.3" wRunning st0).tr) :=
  ⟨by decide, by decide,
   (createLab_clicks_only_on_CREATE "rh124-9.3" wRunning st0 (by decide)
     (none, none) (by decide)).1 (by simp)⟩

/-- C6: `start_lab` clicks only when the positional probe returns a second
button reading exactly `START`; against a page stably showing `STOP` or
`STOPPING` (already running or stopping) it performs no click, raises no
exception and logs the already-running info message; against a page stably
showing `STARTING` it performs no click, raises no exception and logs a
warning; and a successful clicking run observed the second button reach
`STARTING`, `STOP` or `STOPPING` within the bounded wait. -/
theorem startLab_idempotent_on_running_adjacent (c : String) (w : World) (s : St)
    (hsel : (selectLabEnvironmentTab "lab-environment" w s).out = .ok ()) :
    (∀ r : Option String × Option String,
      (getLabActionButton ["Start"] 1 (some "second") w
        (selectLabEnvironmentTab "lab-environment" w s).st).out = .ok r →
      ∀ p x, Ev.click p x ∈ (startLab c w s).tr → p = 2 ∧ r.1.isSome ∧ r.2 = some "START") ∧
    (((∀ t, secondTextAt w t = some "STOP") ∨ (∀ t, secondTextAt w t = some "STOPPING")) →
      (startLab c w s).out = .ok () ∧
      (∀ p x, Ev.click p x ∉ (startLab c w s).tr) ∧
      .info ("Lab already running for " ++ c ++ ".") ∈ (startLab c w s).tr) ∧
    ((∀ t, secondTextAt w t = some "STARTING") →
      (startLab c w s).out = .ok () ∧
      (∀ p x, Ev.click p x ∉ (startLab c w s).tr) ∧
      .warn "Start button not available" ∈ (startLab c w s).tr) ∧
    (∀ r : Option String × Option String,
      (getLabActionButton ["Start"] 1 (some "second") w
        (selectLabEnvironmentTab "lab-environment" w s).st).out = .ok r →
      (r.1.isSome ∧ r.2 = some "START") → (startLab c w s).out = .ok () →
      ∃ t2, (selectLabEnvironmentTab "lab-environment" w s).st.time ≤ t2 ∧
        t2 ≤ (selectLabEnvironmentTab "lab-environment" w s).st.time + 1 + 2 + 60 ∧
        secondIn w t2 ["STARTING", "STOP", "STOPPING"] = true) := by
  obtain ⟨t, ht1, ht2, hrun⟩ := getLabActionButton_run ["Start"] 1 "second" (Or.inr rfl) w
    (selectLabEnvironmentTab "lab-environment" w s).st
  have hnc : ∀ e ∈ (selectLabEnvironmentTab "lab-environment" w s).tr,
      ∀ p x, e ≠ Ev.click p x :=
    trAll_selectLabEnvironmentTab (P := fun e => ∀ p x, e ≠ Ev.click p x)
      (by intro tag _ p x; simp) (by intro m p x; simp) (by intro nn p x; simp)
      (by intro p x; simp) (by intro nn p x; simp) "lab-environment" w s
  have hval : ∀ r : Option String × Option String,
      (getLabActionButton ["Start"] 1 (some "second") w
        (selectLabEnvironmentTab "lab-environment" w s).st).out = .ok r →
      r = actionFromBtns ["Start"] "second" (btnsAt w t) := by
    intro r hp
    rw [hrun] at hp
    exact (Except.ok.inj hp).symm
  by_cases hcond : (actionFromBtns ["Start"] "second" (btnsAt w t)).1.isSome ∧
      (actionFromBtns ["Start"] "second" (btnsAt w t)).2 = some "START"
  · -- the clicking branch
    have hsecond : (btnsAt w t).secondText = some "START" := by
      rcases hsec : (btnsAt w t).secondText with _ | st2
      · exfalso
        revert hcond
        simp [actionFromBtns, hsec]
      · have h2 := hcond.2
        simp only [actionFromBtns, if_neg (show ¬("second" = "first") by decide), hsec] at h2
        by_cases hif : st2 ≠ "" ∧ (List.any ["Start"] fun t => strHas st2 (strUpper t)) = true
        · rw [if_pos hif] at h2
          simp at h2
          rw [h2]
        · rw [if_neg hif] at h2
          simp at h2
    rcases hw60 : waitFrom (fun tt => secondIn w tt ["STARTING", "STOP", "STOPPING"]) 60 (t + 2)
      with _ | t2
    · have hEq : startLab c w s =
          ⟨.error (.timeout "Lab did not appear to start."),
           ⟨t + 2 + 60, (selectLabEnvironmentTab "lab-environment" w s).st.iface⟩,
           Ev.op "start" c :: (selectLabEnvironmentTab "lab-environment" w s).tr ++
             ([.waited "lab-buttons", .probed] ++
              [.click 2 ((actionFromBtns ["Start"] "second" (btnsAt w t)).1.getD ""),
               .waited "start-transition",
               .err ("Failed to start lab " ++ c)])⟩ := by
        simp only [startLab, bindB_eq, M.bind, emit, hsel, attempt, hrun, logStep, logError,
          logInfo, logWarn, throwErr, M.pure, pureP_eq, waitUntilW, sleep, hw60, if_pos hcond]
        simp [hsel]
      refine ⟨?_, ?_, ?_, ?_⟩
      · intro r hp p x hmem
        rw [hEq] at hmem
        have h1 := click_in_op_select_rest hnc hmem
        simp at h1
        rw [hval r hp]
        exact ⟨h1.1, hcond⟩
      · intro hst
        exfalso
        have h3 : (btnsAt w t).secondText = some "STOP" ∨
            (btnsAt w t).secondText = some "STOPPING" := by
          rcases hst with hst | hst
          · exact Or.inl (hst t)
          · exact Or.inr (hst t)
        rcases h3 with h3 | h3 <;> rw [hsecond] at h3 <;> simp at h3
      · intro hst
        exfalso
        have h3 := hst t
        unfold secondTextAt at h3
        rw [hsecond] at h3
        simp at h3
      · intro r hp hc hok
        rw [hEq] at hok
        simp at hok
    · obtain ⟨hcnd, hle1, hle2⟩ := waitFrom_some _ _ _ _ hw60
      have hEq : startLab c w s =
          ⟨.ok (),
           ⟨t2, (selectLabEnvironmentTab "lab-environment" w s).st.iface⟩,
           Ev.op "start" c :: (selectLabEnvironmentTab "lab-environment" w s).tr ++
             ([.waited "lab-buttons", .probed] ++
              [.click 2 ((actionFromBtns ["Start"] "second" (btnsAt w t)).1.getD ""),
               .waited "start-transition",
               .step "Lab start initiated"])⟩ := by
        simp only [startLab, bindB_eq, M.bind, emit, hsel, attempt, hrun, logStep, logError,
          logInfo, logWarn, throwErr, M.pure, pureP_eq, waitUntilW, sleep, hw60, if_pos hcond]
        simp [hsel]
      refine ⟨?_, ?_, ?_, ?_⟩
      · intro r hp p x hmem
        rw [hEq] at hmem
        have h1 := click_in_op_select_rest hnc hmem
        simp at h1
        rw [hval r hp]
        exact ⟨h1.1, hcond⟩
      · intro hst
        exfalso
        have h3 : (btnsAt w t).secondText = some "STOP" ∨
            (btnsAt w t).secondText = some "STOPPING" := by
          rcases hst with hst | hst
          · exact Or.inl (hst t)
          · exact Or.inr (hst t)
        rcases h3 with h3 | h3 <;> rw [hsecond] at h3 <;> simp at h3
      · intro hst
        exfalso
        have h3 := hst t
        unfold secondTextAt at h3
        rw [hsecond] at h3
        simp at h3
      · intro r hp hc hok
        exact ⟨t2, by omega, by omega, hcnd⟩
  · -- the non-clicking branch: a fresh probe decides the log message
    obtain ⟨t', ht1', ht2', hrun'⟩ := getLabButtonsByPosition_run 3 w
      ⟨t, (selectLabEnvironmentTab "lab-environment" w s).st.iface⟩
    by_cases hstop : (btnsAt w t').secondText = some "STOP" ∨
        (btnsAt w t').secondText = some "STOPPING"
    · have hEq : startLab c w s =
          ⟨.ok (),
           ⟨t', (selectLabEnvironmentTab "lab-environment" w s).st.iface⟩,
           Ev.op "start" c :: (selectLabEnvironmentTab "lab-environment" w s).tr ++
             ([.waited "lab-buttons", .probed] ++
              ([.waited "lab-buttons", .probed] ++
               [.info ("Lab already running for " ++ c ++ ".")]))⟩ := by
        simp only [startLab, bindB_eq, M.bind, emit, hsel, attempt, hrun, hrun', logStep,
          logError, logInfo, logWarn, throwErr, M.pure, pureP_eq, if_neg hcond, if_pos hstop]
        simp [hsel]
      refine ⟨?_, ?_, ?_, ?_⟩
      · intro r hp p x hmem
        rw [hEq] at hmem
        have h1 := click_in_op_select_rest hnc hmem
        simp at h1
      · intro _
        refine ⟨by rw [hEq], ?_, by rw [hEq]; simp⟩
        intro p x hmem
        rw [hEq] at hmem
        have h1 := click_in_op_select_rest hnc hmem
        simp at h1
      · intro hst
        exfalso
        have h3 := hst t'
        unfold secondTextAt at h3
        rcases hstop with h2 | h2 <;> rw [h3] at h2 <;> simp at h2
      · intro r hp hc
        exfalso
        rw [hval r hp] at hc
        exact hcond hc
    · have hEq : startLab c w s =
          ⟨.ok (),
           ⟨t', (selectLabEnvironmentTab "lab-environment" w s).st.iface⟩,
           Ev.op "start" c :: (selectLabEnvironmentTab "lab-environment" w s).tr ++
             ([.waited "lab-buttons", .probed] ++
              ([.waited "lab-buttons", .probed] ++
               [.warn "Start button not available"]))⟩ := by
        simp only [startLab, bindB_eq, M.bind, emit, hsel, attempt, hrun, hrun', logStep,
          logError, logInfo, logWarn, throwErr, M.pure, pureP_eq, if_neg hcond, if_neg hstop]
        simp [hsel]
      refine ⟨?_, ?_, ?_, ?_⟩
      · intro r hp p x hmem
        rw [hEq] at hmem
        have h1 := click_in_op_select_rest hnc hmem
        simp at h1
      · intro hst
        exfalso
        have h3 : (btnsAt w t').secondText = some "STOP" ∨
            (btnsAt w t').secondText = some "STOPPING" := by
          rcases hst with hst | hst
          · exact Or.inl (hst t')
          · exact Or.inr (hst t')
        exact hstop h3
      · intro _
        refine ⟨by rw [hEq], ?_, by rw [hEq]; simp⟩
        intro p x hmem
        rw [hEq] at hmem
        have h1 := click_in_op_select_rest hnc hmem
        simp at h1
      · intro r hp hc
        exfalso
        rw [hval r hp] at hc
        exact hcond hc

/-- C6 witness: with a running lab (second button stably `Stop`) `start_lab`
is an informational no-op. -/
theorem startLab_idempotent_on_running_adjacent_witness :
    (selectLabEnvironmentTab "lab-environment" wRunning st0).out = .ok () ∧
    ((startLab "rh124-9.3" wRunning st0).out = .ok () ∧
      (∀ p x, Ev.click p x ∉ (startLab "rh124-9.3" wRunning st0).tr) ∧
      .info ("Lab already running for " ++ "rh124-9.3" ++ ".") ∈
        (startLab "rh124-9.3" wRunning st0).tr) :=
  ⟨by decide,
   (startLab_idempotent_on_running_adjacent "rh124-9.3" wRunning st0 (by decide)).2.1
     (Or.inl fun t => rfl)⟩

theorem confirmDialog_run_found (pat : String) (w : World) (s : St) (tc : Nat)
    (hw : waitFrom (fun t => ((w.dialogButtons t).find? (fun b => strHas b pat)).isSome)
      10 s.time = some tc) :
    ∃ ct, confirmDialog pat w s =
        ⟨.ok (), ⟨tc, s.iface⟩, [.waited "dialog-confirm", .clickConfirm ct]⟩ ∧
      strHas ct pat = true := by
  have hcnd := (waitFrom_some _ _ _ _ hw).1
  simp only [Option.isSome_iff_exists] at hcnd
  obtain ⟨ct, hct⟩ := hcnd
  refine ⟨ct, ?_, by simpa using List.find?_some hct⟩
  simp [confirmDialog, bindB_eq, M.bind, waitUntilW, hw, hct]

theorem confirmDialog_run_timeout (pat : String) (w : World) (s : St)
    (hw : waitFrom (fun t => ((w.dialogButtons t).find? (fun b => strHas b pat)).isSome)
      10 s.time = none) :
    confirmDialog pat w s =
      ⟨.error (.timeout "confirm button not clickable"), ⟨s.time + 10, s.iface⟩,
        [.waited "dialog-confirm"]⟩ := by
  simp [confirmDialog, bindB_eq, M.bind, waitUntilW, hw]

/-- C5: `delete_lab` clicks only when the positional probe returns a first
button reading exactly `DELETE`; a successful deleting run confirmed through
a dialog button whose text contains `Delete`, observed the first button
reach `DELETING` or `CREATE` within the first bounded wait, and, whenever
the follow-up 180s wait ran (first button still `DELETING` after the first
transition), observed `CREATE`; against a page stably showing `CREATE` the
call is an informational no-op without click or exception. -/
theorem deleteLab_acts_only_on_DELETE (c : String) (w : World) (s : St)
    (hsel : (selectLabEnvironmentTab "lab-environment" w s).out = .ok ()) :
    (∀ r : Option String × Option String,
      (getLabActionButton ["Delete"] 1 (some "first") w
        (selectLabEnvironmentTab "lab-environment" w s).st).out = .ok r →
      ∀ p x, Ev.click p x ∈ (deleteLab c w s).tr → p = 1 ∧ r.1.isSome ∧ r.2 = some "DELETE") ∧
    (∀ r : Option String × Option String,
      (getLabActionButton ["Delete"] 1 (some "first") w
        (selectLabEnvironmentTab "lab-environment" w s).st).out = .ok r →
      (r.1.isSome ∧ r.2 = some "DELETE") → (deleteLab c w s).out = .ok () →
      (∃ ct, Ev.clickConfirm ct ∈ (deleteLab c w s).tr ∧ strHas ct "Delete" = true) ∧
      (∃ t1, firstIn w t1 ["DELETING", "CREATE"] = true) ∧
      (.waited "delete-finish" ∈ (deleteLab c w s).tr →
        ∃ t2, firstIn w t2 ["CREATE"] = true)) ∧
    ((∀ tt, firstTextAt w tt = some "CREATE") →
      (deleteLab c w s).out = .ok () ∧
      (∀ p x, Ev.click p x ∉ (deleteLab c w s).tr) ∧
      .info ("No lab to delete for " ++ c ++ " (lab does not exist).") ∈ (deleteLab c w s).tr) := by
  obtain ⟨t, ht1, ht2, hrun⟩ := getLabActionButton_run ["Delete"] 1 "first" (Or.inl rfl) w
    (selectLabEnvironmentTab "lab-environment" w s).st
  have hnc : ∀ e ∈ (selectLabEnvironmentTab "lab-environment" w s).tr,
      ∀ p x, e ≠ Ev.click p x :=
    trAll_selectLabEnvironmentTab (P := fun e => ∀ p x, e ≠ Ev.click p x)
      (by intro tag _ p x; simp) (by intro m p x; simp) (by intro nn p x; simp)
      (by intro p x; simp) (by intro nn p x; simp) "lab-environment" w s
  have hval : ∀ r : Option String × Option String,
      (getLabActionButton ["Delete"] 1 (some "first") w
        (selectLabEnvironmentTab "lab-environment" w s).st).out = .ok r →
      r = actionFromBtns ["Delete"] "first" (btnsAt w t) := by
    intro r hp
    rw [hrun] at hp
    exact (Except.ok.inj hp).symm
  have hstable : (∀ tt, firstTextAt w tt = some "CREATE") →
      ¬ ((actionFromBtns ["Delete"] "first" (btnsAt w t)).1.isSome ∧
        (actionFromBtns ["Delete"] "first" (btnsAt w t)).2 = some "DELETE") := by
    intro hst hcc
    have h3 := hst t
    unfold firstTextAt at h3
    have h2 := hcc.2
    simp only [actionFromBtns, if_pos (show ("first" : String) = "first" from rfl), h3] at h2
    split at h2
    · rw [if_neg (by decide)] at h2
      exact absurd h2 (by simp)
    · simp_all
  by_cases hcond : (actionFromBtns ["Delete"] "first" (btnsAt w t)).1.isSome ∧
      (actionFromBtns ["Delete"] "first" (btnsAt w t)).2 = some "DELETE"
  · rcases hcw : waitFrom
        (fun tt => ((w.dialogButtons tt).find? (fun b => strHas b "Delete")).isSome) 10 t
      with _ | tc
    · -- dialog confirm never clickable: logged and re-raised
      have hcf := confirmDialog_run_timeout "Delete" w
        ⟨t, (selectLabEnvironmentTab "lab-environment" w s).st.iface⟩ (by simpa using hcw)
      have hEq : deleteLab c w s =
          ⟨.error (.timeout "confirm button not clickable"),
           ⟨t + 10, (selectLabEnvironmentTab "lab-environment" w s).st.iface⟩,
           Ev.op "delete" c :: (selectLabEnvironmentTab "lab-environment" w s).tr ++
             ([.waited "lab-buttons", .probed] ++
              [.click 1 ((actionFromBtns ["Delete"] "first" (btnsAt w t)).1.getD ""),
               .waited "dialog-confirm",
               .err ("Failed to delete lab " ++ c)])⟩ := by
        simp only [deleteLab, bindB_eq, M.bind, emit, hsel, attempt, hrun, hcf, logStep,
          logError, logInfo, throwErr, M.pure, pureP_eq, if_pos hcond]
        simp [hsel]
      refine ⟨?_, ?_, ?_⟩
      · intro r hp p x hmem
        rw [hEq] at hmem
        have h1 := click_in_op_select_rest hnc hmem
        simp at h1
        rw [hval r hp]
        exact ⟨h1.1, hcond⟩
      · intro r hp hc hok
        rw [hEq] at hok
        simp at hok
      · intro hst
        exact absurd hcond (hstable hst)
    · obtain ⟨ct, hcf, hctpat⟩ := confirmDialog_run_found "Delete" w
        ⟨t, (selectLabEnvironmentTab "lab-environment" w s).st.iface⟩ tc (by simpa using hcw)
      rcases h120 : waitFrom (fun tt => firstIn w tt ["DELETING", "CREATE"]) 120 (tc + 2)
        with _ | t1
      · have hEq : deleteLab c w s =
            ⟨.error (.timeout "Lab deletion did not initiate."),
             ⟨tc + 2 + 120, (selectLabEnvironmentTab "lab-environment" w s).st.iface⟩,
             Ev.op "delete" c :: (selectLabEnvironmentTab "lab-environment" w s).tr ++
               ([.waited "lab-buttons", .probed] ++
                [.click 1 ((actionFromBtns ["Delete"] "first" (btnsAt w t)).1.getD ""),
                 .waited "dialog-confirm", .clickConfirm ct,
                 .waited "delete-transition",
                 .err ("Failed to delete lab " ++ c)])⟩ := by
          simp only [deleteLab, bindB_eq, M.bind, emit, hsel, attempt, hrun, hcf, logStep,
            logError, logInfo, throwErr, M.pure, pureP_eq, waitUntilW, sleep, h120,
            if_pos hcond]
          simp [hsel]
        refine ⟨?_, ?_, ?_⟩
        · intro r hp p x hmem
          rw [hEq] at hmem
          have h1 := click_in_op_select_rest hnc hmem
          simp at h1
          rw [hval r hp]
          exact ⟨h1.1, hcond⟩
        · intro r hp hc hok
          rw [hEq] at hok
          simp at hok
        · intro hst
          exact absurd hcond (hstable hst)
      · have hfd := (waitFrom_some _ _ _ _ h120).1
        obtain ⟨tp, htp1, htp2, hrunp⟩ := getLabButtonsByPosition_run 3 w
          ⟨t1, (selectLabEnvironmentTab "lab-environment" w s).st.iface⟩
        by_cases hdel : (btnsAt w tp).firstText = some "DELETING"
        · rcases h180 : waitFrom (fun tt => firstIn w tt ["CREATE"]) 180 tp with _ | t2
          · have hEq : deleteLab c w s =
                ⟨.error (.timeout "Lab did not finish deleting."),
                 ⟨tp + 180, (selectLabEnvironmentTab "lab-environment" w s).st.iface⟩,
                 Ev.op "delete" c :: (selectLabEnvironmentTab "lab-environment" w s).tr ++
                   ([.waited "lab-buttons", .probed] ++
                    [.click 1 ((actionFromBtns ["Delete"] "first" (btnsAt w t)).1.getD ""),
                     .waited "dialog-confirm", .clickConfirm ct,
                     .waited "delete-transition", .waited "lab-buttons", .probed,
                     .waited "delete-finish",
                     .err ("Failed to delete lab " ++ c)])⟩ := by
              simp only [deleteLab, bindB_eq, M.bind, emit, hsel, attempt, hrun, hcf, hrunp,
                logStep, logError, logInfo, throwErr, M.pure, pureP_eq, waitUntilW, sleep,
                h120, h180, if_pos hcond, if_pos hdel]
              simp [hsel]
            refine ⟨?_, ?_, ?_⟩
            · intro r hp p x hmem
              rw [hEq] at hmem
              have h1 := click_in_op_select_rest hnc hmem
              simp at h1
              rw [hval r hp]
              exact ⟨h1.1, hcond⟩
            · intro r hp hc hok
              rw [hEq] at hok
              simp at hok
            · intro hst
              exact absurd hcond (hstable hst)
          · have hEq : deleteLab c w s =
                ⟨.ok (),
                 ⟨t2, (selectLabEnvironmentTab "lab-environment" w s).st.iface⟩,
                 Ev.op "delete" c :: (selectLabEnvironmentTab "lab-environment" w s).tr ++
                   ([.waited "lab-buttons", .probed] ++
                    [.click 1 ((actionFromBtns ["Delete"] "first" (btnsAt w t)).1.getD ""),
                     .waited "dialog-confirm", .clickConfirm ct,
                     .waited "delete-transition", .waited "lab-buttons", .probed,
                     .waited "delete-finish",
                     .step "Lab deleted successfully"])⟩ := by
              simp only [deleteLab, bindB_eq, M.bind, emit, hsel, attempt, hrun, hcf, hrunp,
                logStep, logError, logInfo, throwErr, M.pure, pureP_eq, waitUntilW, sleep,
                h120, h180, if_pos hcond, if_pos hdel]
              simp [hsel]
            refine ⟨?_, ?_, ?_⟩
            · intro r hp p x hmem
              rw [hEq] at hmem
              have h1 := click_in_op_select_rest hnc hmem
              simp at h1
              rw [hval r hp]
              exact ⟨h1.1, hcond⟩
            · intro r hp hc hok
              refine ⟨⟨ct, by rw [hEq]; simp, hctpat⟩, ⟨t1, hfd⟩, ?_⟩
              intro _
              exact ⟨t2, (waitFrom_some _ _ _ _ h180).1⟩
            · intro hst
              exact absurd hcond (hstable hst)
        · have hEq : deleteLab c w s =
              ⟨.ok (),
               ⟨tp, (selectLabEnvironmentTab "lab-environment" w s).st.iface⟩,
               Ev.op "delete" c :: (selectLabEnvironmentTab "lab-environment" w s).tr ++
                 ([.waited "lab-buttons", .probed] ++
                  [.click 1 ((actionFromBtns ["Delete"] "first" (btnsAt w t)).1.getD ""),
                   .waited "dialog-confirm", .clickConfirm ct,
                   .waited "delete-transition", .waited "lab-buttons", .probed,
                   .step "Lab deleted successfully"])⟩ := by
            simp only [deleteLab, bindB_eq, M.bind, emit, hsel, attempt, hrun, hcf, hrunp,
              logStep, logError, logInfo, throwErr, M.pure, pureP_eq, waitUntilW, sleep,
              h120, if_pos hcond, if_neg hdel]
            simp [hsel]
          refine ⟨?_, ?_, ?_⟩
          · intro r hp p x hmem
            rw [hEq] at hmem
            have h1 := click_in_op_select_rest hnc hmem
            simp at h1
            rw [hval r hp]
            exact ⟨h1.1, hcond⟩
          · intro r hp hc hok
            refine ⟨⟨ct, by rw [hEq]; simp, hctpat⟩, ⟨t1, hfd⟩, ?_⟩
            intro hfin
            exfalso
            rw [hEq] at hfin
            have h1 : Ev.waited "delete-finish" ∈
                Ev.op "delete" c :: (selectLabEnvironmentTab "lab-environment" w s).tr ++
                  ([.waited "lab-buttons", .probed] ++
                   [.click 1 ((actionFromBtns ["Delete"] "first" (btnsAt w t)).1.getD ""),
                    .waited "dialog-confirm", .clickConfirm ct,
                    .waited "delete-transition", .waited "lab-buttons", .probed,
                    .step "Lab deleted successfully"]) := hfin
            simp only [List.mem_cons, List.mem_append] at h1
            rcases h1 with (h1 | h1) | h1
            · simp at h1
            · have hw := trAll_selectLabEnvironmentTab
                (P := fun e => e ≠ Ev.waited "delete-finish")
                (by intro tag htag; simp [selectTags] at htag; rcases htag with h|h|h|h|h|h <;> simp [h])
                (by intro m; simp) (by intro nn; simp) (by simp) (by intro nn; simp)
                "lab-environment" w s
              exact hw _ h1 rfl
            · simp at h1
          · intro hst
            exact absurd hcond (hstable hst)
  · obtain ⟨tp, htp1, htp2, hrunp⟩ := getLabButtonsByPosition_run 3 w
      ⟨t, (selectLabEnvironmentTab "lab-environment" w s).st.iface⟩
    by_cases hcr : (btnsAt w tp).firstText = some "CREATE"
    · have hEq : deleteLab c w s =
          ⟨.ok (),
           ⟨tp, (selectLabEnvironmentTab "lab-environment" w s).st.iface⟩,
           Ev.op "delete" c :: (selectLabEnvironmentTab "lab-environment" w s).tr ++
             ([.waited "lab-buttons", .probed] ++
              ([.waited "lab-buttons", .probed] ++
               [.info ("No lab to delete for " ++ c ++ " (lab does not exist).")]))⟩ := by
        simp only [deleteLab, bindB_eq, M.bind, emit, hsel, attempt, hrun, hrunp, logStep,
          logError, logInfo, throwErr, M.pure, pureP_eq, if_neg hcond, if_pos hcr]
        simp [hsel]
      refine ⟨?_, ?_, ?_⟩
      · intro r hp p x hmem
        rw [hEq] at hmem
        have h1 := click_in_op_select_rest hnc hmem
        simp at h1
      · intro r hp hc
        exfalso
        rw [hval r hp] at hc
        exact hcond hc
      · intro _
        refine ⟨by rw [hEq], ?_, by rw [hEq]; simp⟩
        intro p x hmem
        rw [hEq] at hmem
        have h1 := click_in_op_select_rest hnc hmem
        simp at h1
    · have hEq : deleteLab c w s =
          ⟨.ok (),
           ⟨tp, (selectLabEnvironmentTab "lab-environment" w s).st.iface⟩,
           Ev.op "delete" c :: (selectLabEnvironmentTab "lab-environment" w s).tr ++
             ([.waited "lab-buttons", .probed] ++
              ([.waited "lab-buttons", .probed] ++
               [.err ("Delete button not found for " ++ c)]))⟩ := by
        simp only [deleteLab, bindB_eq, M.bind, emit, hsel, attempt, hrun, hrunp, logStep,
          logError, logInfo, throwErr, M.pure, pureP_eq, if_neg hcond, if_neg hcr]
        simp [hsel]
      refine ⟨?_, ?_, ?_⟩
      · intro r hp p x hmem
        rw [hEq] at hmem
        have h1 := click_in_op_select_rest hnc hmem
        simp at h1
      · intro r hp hc
        exfalso
        rw [hval r hp] at hc
        exact hcond hc
      · intro hst
        exfalso
        exact hcr (hst tp)

/-- C5 witness: with no lab (stable single `Create` button) `delete_lab` is
an informational no-op. -/
theorem deleteLab_acts_only_on_DELETE_witness :
    (selectLabEnvironmentTab "lab-environment" wCreate st0).out = .ok () ∧
    ((deleteLab "rh124-9.3" wCreate st0).out = .ok () ∧
      (∀ p x, Ev.click p x ∉ (deleteLab "rh124-9.3" wCreate st0).tr) ∧
      .info ("No lab to delete for " ++ "rh124-9.3" ++ " (lab does not exist).") ∈
        (deleteLab "rh124-9.3" wCreate st0).tr) :=
  ⟨by decide,
   (deleteLab_acts_only_on_DELETE "rh124-9.3" wCreate st0 (by decide)).2.2
     (fun tt => rfl)⟩

/-! ### Phase events: lifecycle-operation entries and the orchestrator's own
waits, used to state in which order `recreate_lab` performs its steps. -/

def isPhase : Ev → Bool
  | .op _ _ => true
  | .waited tag =>
      tag = "recreate-wait-create" || tag = "recreate-wait-stable" ||
        tag = "recreate-wait-deleted"
  | _ => false

theorem bind_tr_prefix {α β : Type} (m : M α) (f : α → M β) (w : World) (s : St) :
    ∃ rest, ((m >>= f) w s).tr = (m w s).tr ++ rest := by
  rcases ho : (m w s).out with e | a
  · exact ⟨[], by rw [bindH_fail ho]; simp⟩
  · exact ⟨(f a w (m w s).st).tr, by rw [bindH_run ho]⟩

theorem attempt_tr_prefix {α : Type} (m : M α) (h : Err → M α) (w : World) (s : St) :
    ∃ rest, (attempt m h w s).tr = (m w s).tr ++ rest := by
  rcases ho : (m w s).out with e | a
  · exact ⟨(h e w (m w s).st).tr, by rw [attempt_fail ho]⟩
  · exact ⟨[], by rw [attempt_run ho]; simp⟩

theorem op_head (e0 : Ev) {α : Type} (k : Unit → M α) (w : World) (s : St) :
    ∃ rest, ((emit e0 >>= k) w s).tr = e0 :: rest := by
  refine ⟨(k () w s).tr, ?_⟩
  rw [bindH_run (show (emit e0 w s).out = .ok () from rfl)]
  simp [emit]

theorem filter_nil_of_all {l : List Ev} (h : ∀ e ∈ l, isPhase e = false) :
    l.filter isPhase = [] :=
  List.filter_eq_nil_iff.mpr (fun e he => by simp [h e he])

theorem filter_emit_op {α : Type} {e0 : Ev} {k : Unit → M α} {w : World} {s : St}
    (he0 : isPhase e0 = true) (hk : ∀ e ∈ (k () w s).tr, isPhase e = false) :
    (((emit e0 >>= k) w s).tr).filter isPhase = [e0] := by
  rw [bindH_run (show (emit e0 w s).out = .ok () from rfl)]
  simp only [emit]
  rw [List.filter_append, filter_nil_of_all hk]
  simp [he0]

/-- Tab selection emits no phase event. -/
theorem select_no_phase (n : String) (w : World) (s : St) :
    ∀ e ∈ (selectLabEnvironmentTab n w s).tr, isPhase e = false :=
  trAll_selectLabEnvironmentTab (P := fun e => isPhase e = false)
    (by intro tag htag; fin_cases htag <;> rfl) (fun m => rfl) (fun nn => rfl) rfl
    (fun nn => rfl) n w s

/-- Course navigation emits no phase event. -/
theorem goToCourse_no_phase (c env : String) (w : World) (s : St) :
    ∀ e ∈ (goToCourse c env w s).tr, isPhase e = false :=
  trAll_goToCourse (P := fun e => isPhase e = false)
    (by intro tag htag; fin_cases htag <;> rfl) (fun m => rfl) rfl (fun m => rfl) rfl
    c env w s

/-- The status probe emits no phase event. -/
theorem checkLabStatus_no_phase (w : World) (s : St) :
    ∀ e ∈ (checkLabStatus w s).tr, isPhase e = false :=
  trAll_checkLabStatus (P := fun e => isPhase e = false)
    (by intro tag htag; fin_cases htag <;> rfl) (fun m => rfl) (fun nn => rfl) rfl
    (fun nn => rfl) rfl (fun m => rfl) w s

/-- The post-provisioning adjustment tail emits no phase event. -/
theorem recreateTail_no_phase (c : String) (w : World) (s : St) :
    ∀ e ∈ (recreateTail c w s).tr, isPhase e = false :=
  trAll_recreateTail (P := fun e => isPhase e = false)
    (by intro tag htag; fin_cases htag <;> rfl) (fun m => rfl) (fun nn => rfl) rfl
    (fun nn => rfl) (fun rr => rfl) (fun m => rfl) (fun m => rfl) c w s

/-- The orchestrator-level phase events of one `create_lab` call are exactly
its own entry. -/
theorem createLab_phase (c : String) (w : World) (s : St) :
    ((createLab c w s).tr).filter isPhase = [Ev.op "create" c] := by
  unfold createLab
  refine filter_emit_op rfl ?_
  intro e he
  refine trAll_bind (P := fun e => isPhase e = false) ?_ ?_ w s e he
  · exact trAll_selectLabEnvironmentTab (P := fun e => isPhase e = false)
      (by intro tag htag; fin_cases htag <;> rfl) (fun m => rfl) (fun nn => rfl) rfl
      (fun nn => rfl) "lab-environment"
  · intro _
    refine trAll_attempt ?_ ?_
    · refine trAll_bind ?_ ?_
      · exact trAll_getLabActionButton (P := fun e => isPhase e = false)
          (by intro tag htag; fin_cases htag <;> rfl) rfl (fun m => rfl) _ _ _
      · intro r
        refine trAll_ite ?_ (trAll_logStep rfl)
        refine trAll_bind (trAll_emit rfl) ?_
        intro _
        exact trAll_bind (trAll_waitUntilW (by rfl) _ _ _) (fun _ => trAll_logStep rfl)
    · intro er
      exact trAll_bind (trAll_logError rfl) (fun _ => trAll_throwErr _)

/-- The orchestrator-level phase events of one `delete_lab` call are exactly
its own entry. -/
theorem deleteLab_phase (c : String) (w : World) (s : St) :
    ((deleteLab c w s).tr).filter isPhase = [Ev.op "delete" c] := by
  unfold deleteLab
  refine filter_emit_op rfl ?_
  intro e he
  refine trAll_bind (P := fun e => isPhase e = false) ?_ ?_ w s e he
  · exact trAll_selectLabEnvironmentTab (P := fun e => isPhase e = false)
      (by intro tag htag; fin_cases htag <;> rfl) (fun m => rfl) (fun nn => rfl) rfl
      (fun nn => rfl) "lab-environment"
  · intro _
    refine trAll_attempt ?_ ?_
    · refine trAll_bind ?_ ?_
      · exact trAll_getLabActionButton (P := fun e => isPhase e = false)
          (by intro tag htag; fin_cases htag <;> rfl) rfl (fun m => rfl) _ _ _
      · intro r
        refine trAll_ite ?_ ?_
        · refine trAll_bind (trAll_emit rfl) ?_
          intro _
          refine trAll_bind ?_ ?_
          · exact trAll_confirmDialog (P := fun e => isPhase e = false)
              (by intro tag htag; fin_cases htag <;> rfl) (fun tt => rfl) _
          · intro _
            refine trAll_bind (trAll_sleep 2) ?_
            intro _
            refine trAll_bind (trAll_waitUntilW (by rfl) _ _ _) ?_
            intro _
            refine trAll_bind ?_ ?_
            · exact trAll_getLabButtonsByPosition (P := fun e => isPhase e = false)
                (by intro tag htag; fin_cases htag <;> rfl) rfl (fun m => rfl) _
            · intro b
              refine trAll_ite ?_ (trAll_logStep rfl)
              exact trAll_bind (trAll_waitUntilW (by rfl) _ _ _) (fun _ => trAll_logStep rfl)
        · refine trAll_bind ?_ ?_
          · exact trAll_getLabButtonsByPosition (P := fun e => isPhase e = false)
              (by intro tag htag; fin_cases htag <;> rfl) rfl (fun m => rfl) _
          · intro b
            exact trAll_ite (trAll_logInfo rfl) (trAll_logError rfl)
    · intro er
      exact trAll_bind (trAll_logError rfl) (fun _ => trAll_throwErr _)

theorem trAll_recreateLab {P : Ev → Prop}
    (hw : WaitsOK P (helperTags ++
      ["recreate-wait-create", "recreate-wait-stable", "recreate-wait-deleted"]))
    (hs : ∀ m, P (.step m)) (hct : ∀ n, P (.clickTab n)) (hc : P .cookies)
    (hsel : ∀ n, P (.selectedTab n)) (hp : P .probed) (hd : ∀ m, P (.debug m))
    (hopc : ∀ c, P (.op "create" c)) (hopd : ∀ c, P (.op "delete" c))
    (hopr : ∀ c, P (.op "recreate" c)) (hclick : ∀ p x, P (.click p x))
    (hcc : ∀ t, P (.clickConfirm t)) (herr : ∀ m, P (.err m)) (hi : ∀ m, P (.info m))
    (hwarn : ∀ m, P (.warn m)) (ha : ∀ r, P (.clickAdj r)) (hg : P .goToUrl) :
    ∀ fuel c env, TrAll P (recreateLab fuel c env) := by
  have hwH : WaitsOK P helperTags := fun tag ht => hw tag (by simp at ht ⊢; tauto)
  have hdel : ∀ c, TrAll P (deleteLab c) := fun c =>
    trAll_deleteLab (fun tag ht => hwH tag (by simp [helperTags, selectTags] at ht ⊢; tauto))
      hs hct hc hsel hp hd hopd hclick hcc herr hi c
  have hcr : ∀ c, TrAll P (createLab c) := fun c =>
    trAll_createLab (fun tag ht => hwH tag (by simp [helperTags, selectTags] at ht ⊢; tauto))
      hs hct hc hsel hp hd hopc hclick herr c
  have htl : ∀ c, TrAll P (recreateTail c) := fun c =>
    trAll_recreateTail hwH hs hct hc hsel ha herr hwarn c
  intro fuel
  induction fuel with
  | zero =>
      intro c env
      unfold recreateLab
      exact trAll_throwErr _
  | succ k ih =>
      intro c env
      unfold recreateLab
      refine trAll_bind (trAll_emit (hopr c)) ?_
      intro _
      refine trAll_bind ?_ ?_
      · exact trAll_goToCourse
          (fun tag ht => hwH tag (by simp [helperTags, selectTags] at ht ⊢; tauto))
          hs hc hwarn hg c env
      · intro _
        refine trAll_bind ?_ ?_
        · exact trAll_selectLabEnvironmentTab
            (fun tag ht => hwH tag (by simp [helperTags, selectTags] at ht ⊢; tauto))
            hs hct hc hsel "lab-environment"
        · intro _
          refine trAll_bind ?_ ?_
          · exact trAll_checkLabStatus
              (fun tag ht => hwH tag (by simp [helperTags, selectTags] at ht ⊢; tauto))
              hs hct hc hsel hp hd
          · intro pq
            refine trAll_bind (trAll_logStep (hs _)) ?_
            intro _
            refine trAll_ite ?_ ?_
            · exact trAll_bind (hcr c) fun _ => htl c
            · refine trAll_ite ?_ ?_
              · refine trAll_bind (hdel c) ?_
                intro _
                refine trAll_bind (trAll_waitUntilW (hw _ (by simp)) _ _ _) ?_
                intro _
                exact trAll_bind (hcr c) fun _ => htl c
              · refine trAll_ite ?_ ?_
                · refine trAll_bind (trAll_logStep (hs _)) ?_
                  intro _
                  refine trAll_bind (trAll_waitUntilW (hw _ (by simp)) _ _ _) ?_
                  intro _
                  exact ih c env
                · refine trAll_ite ?_ ?_
                  · refine trAll_bind (trAll_logStep (hs _)) ?_
                    intro _
                    refine trAll_bind (trAll_waitUntilW (hw _ (by simp)) _ _ _) ?_
                    intro _
                    exact trAll_bind (hcr c) fun _ => htl c
                  · refine trAll_bind (trAll_logWarn (hwarn _)) ?_
                    intro _
                    refine trAll_bind ?_ ?_
                    · refine trAll_attempt ?_ fun _ => trAll_logError (herr _)
                      refine trAll_bind (hdel c) ?_
                      intro _
                      exact trAll_waitUntilW (hw _ (by simp)) _ _ _
                    · intro _
                      exact trAll_bind (hcr c) fun _ => htl c

theorem select_phase_nil (n : String) (w : World) (s : St) :
    ((selectLabEnvironmentTab n w s).tr).filter isPhase = [] :=
  filter_nil_of_all (select_no_phase n w s)

theorem goToCourse_phase_nil (c env : String) (w : World) (s : St) :
    ((goToCourse c env w s).tr).filter isPhase = [] :=
  filter_nil_of_all (goToCourse_no_phase c env w s)

theorem checkLabStatus_phase_nil (w : World) (s : St) :
    ((checkLabStatus w s).tr).filter isPhase = [] :=
  filter_nil_of_all (checkLabStatus_no_phase w s)

theorem recreateTail_phase_nil (c : String) (w : World) (s : St) :
    ((recreateTail c w s).tr).filter isPhase = [] :=
  filter_nil_of_all (recreateTail_no_phase c w s)

/-- C4: a `recreate_lab` run that probes `(DELETE, START)` (a stopped lab)
never invokes `start_lab`, and on success its lifecycle phases are exactly
delete, then the wait for `CREATE` to reappear, then create — and the wait
witnessed the first button reading `CREATE`. -/
theorem recreateLab_from_stopped_deletes_then_creates
    (w : World) (s : St) (c env : String) (fuel : Nat)
    (hgo : (goToCourse c env w s).out = .ok ())
    (hsl : (selectLabEnvironmentTab "lab-environment" w (goToCourse c env w s).st).out = .ok ())
    (hpr : (checkLabStatus w
      (selectLabEnvironmentTab "lab-environment" w (goToCourse c env w s).st).st).out =
      .ok (some "DELETE", some "START")) :
    (∀ x, Ev.op "start" x ∉ (recreateLab (fuel + 1) c env w s).tr) ∧
    ((recreateLab (fuel + 1) c env w s).out = .ok () →
      ((recreateLab (fuel + 1) c env w s).tr).filter isPhase =
        [.op "recreate" c, .op "delete" c, .waited "recreate-wait-create", .op "create" c] ∧
      ∃ t, firstIn w t ["CREATE"] = true) := by
  constructor
  · intro x hmem
    have hall := trAll_recreateLab (P := fun e => ∀ y, e ≠ Ev.op "start" y)
      (fun tag _ y => by simp) (fun m y => by simp) (fun n y => by simp) (fun y => by simp)
      (fun n y => by simp) (fun y => by simp) (fun m y => by simp) (fun c' y => by simp)
      (fun c' y => by simp) (fun c' y => by simp) (fun p xx y => by simp)
      (fun tt y => by simp) (fun m y => by simp) (fun m y => by simp) (fun m y => by simp)
      (fun r y => by simp) (fun y => by simp) (fuel + 1) c env
    exact hall w s _ hmem x rfl
  · intro hok
    simp only [recreateLab, bindB_eq, M.bind, emit, hgo, hsl, hpr, logStep] at hok ⊢
    simp only [Option.some.injEq, String.reduceEq, reduceCtorEq, if_false, if_true,
      reduceIte] at hok ⊢
    rcases hd1 : (deleteLab c w
        (checkLabStatus w
          (selectLabEnvironmentTab "lab-environment" w (goToCourse c env w s).st).st).st).out
      with e | u
    · rw [bind_fail hd1] at hok
      simp at hok
    · rw [bind_run hd1] at hok ⊢
      simp only [] at hok ⊢
      rcases hwt : waitFrom (fun tt => firstIn w tt ["CREATE"]) 180
          ((deleteLab c w
            (checkLabStatus w
              (selectLabEnvironmentTab "lab-environment" w
                (goToCourse c env w s).st).st).st).st.time)
        with _ | t1
      · have hw1 : (waitUntilW "recreate-wait-create" 180 (fun w t => firstIn w t ["CREATE"])
            "Create button not available after delete." w
            (deleteLab c w
              (checkLabStatus w
                (selectLabEnvironmentTab "lab-environment" w
                  (goToCourse c env w s).st).st).st).st).out =
            .error (.timeout "Create button not available after delete.") := by
          simp [waitUntilW, hwt]
        rw [bind_fail hw1] at hok
        simp at hok
      · have hw1 : (waitUntilW "recreate-wait-create" 180 (fun w t => firstIn w t ["CREATE"])
            "Create button not available after delete." w
            (deleteLab c w
              (checkLabStatus w
                (selectLabEnvironmentTab "lab-environment" w
                  (goToCourse c env w s).st).st).st).st).out = .ok () := by
          simp [waitUntilW, hwt]
        rw [bind_run hw1] at hok ⊢
        rcases hc1 : (createLab c w
            ((waitUntilW "recreate-wait-create" 180 (fun w t => firstIn w t ["CREATE"])
              "Create button not available after delete." w
              (deleteLab c w
                (checkLabStatus w
                  (selectLabEnvironmentTab "lab-environment" w
                    (goToCourse c env w s).st).st).st).st).st)).out
          with e2 | u2
        · rw [bind_fail hc1] at hok
          simp at hok
        · rw [bind_run hc1] at hok ⊢
          refine ⟨?_, ⟨t1, (waitFrom_some _ _ _ _ hwt).1⟩⟩
          simp [List.filter_append, select_phase_nil, goToCourse_phase_nil,
            checkLabStatus_phase_nil, recreateTail_phase_nil, deleteLab_phase,
            createLab_phase, isPhase, waitUntilW, hwt]

/-- A healthy new-interface page with a stopped lab: Delete and Start
buttons. -/
def wDelStart : World :=
  { wCreate with labButtons := fun _ => ["Delete", "Start"] }

/-- Closed instance of the C4 theorem on the stopped-lab oracle. -/
theorem recreateLab_from_stopped_deletes_then_creates_witness :
    (goToCourse "c1" "" wDelStart st0).out = .ok () ∧
    (selectLabEnvironmentTab "lab-environment" wDelStart
      (goToCourse "c1" "" wDelStart st0).st).out = .ok () ∧
    (checkLabStatus wDelStart
      (selectLabEnvironmentTab "lab-environment" wDelStart
        (goToCourse "c1" "" wDelStart st0).st).st).out = .ok (some "DELETE", some "START") ∧
    ((∀ x, Ev.op "start" x ∉ (recreateLab 1 "c1" "" wDelStart st0).tr) ∧
     ((recreateLab 1 "c1" "" wDelStart st0).out = .ok () →
       ((recreateLab 1 "c1" "" wDelStart st0).tr).filter isPhase =
         [.op "recreate" "c1", .op "delete" "c1", .waited "recreate-wait-create",
          .op "create" "c1"] ∧
       ∃ t, firstIn wDelStart t ["CREATE"] = true)) :=
  ⟨by decide, by decide, by decide,
   recreateLab_from_stopped_deletes_then_creates wDelStart st0 "c1" "" 0
     (by decide) (by decide) (by decide)⟩

theorem attempt_swallow_ok (m : M Unit) (g : String) (w : World) (s : St) :
    (attempt m (fun e => logError g) w s).out = .ok () := by
  rcases ho : (m w s).out with e | a
  · rw [attempt_fail ho]
    rfl
  · rw [attempt_run ho, ho]

theorem deleteLab_head (c : String) (w : World) (s : St) :
    ∃ rest, (deleteLab c w s).tr = Ev.op "delete" c :: rest := by
  unfold deleteLab
  exact op_head _ _ w s

theorem createLab_head (c : String) (w : World) (s : St) :
    ∃ rest, (createLab c w s).tr = Ev.op "create" c :: rest := by
  unfold createLab
  exact op_head _ _ w s

/-- C7: when the probed status pair matches none of the dispatch keys
(`CREATE`, `DELETE`, `CREATING`, `DELETING`) — including the zero-button
probe where both components are `None` — `recreate_lab` logs the
unexpected-status warning, attempts the fallback delete (its lifecycle
entry appears in the trace) and then create (its lifecycle entry appears
too), the guarded delete-and-wait block always finishes without raising,
and the orchestrator outcome is exactly the outcome of the
create-and-adjust continuation: a fallback-delete failure is swallowed,
never raised from this branch. -/
theorem recreateLab_unknown_status_fallback
    (w : World) (s : St) (c env : String) (fuel : Nat) (p q : Option String)
    (hgo : (goToCourse c env w s).out = .ok ())
    (hsl : (selectLabEnvironmentTab "lab-environment" w (goToCourse c env w s).st).out = .ok ())
    (hpr : (checkLabStatus w
      (selectLabEnvironmentTab "lab-environment" w (goToCourse c env w s).st).st).out =
      .ok (p, q))
    (h1 : p ≠ some "CREATE") (h2 : p ≠ some "DELETE")
    (h3 : p ≠ some "CREATING") (h4 : p ≠ some "DELETING") :
    Ev.warn "Unexpected lab status. Attempting fallback delete+create." ∈
      (recreateLab (fuel + 1) c env w s).tr ∧
    Ev.op "delete" c ∈ (recreateLab (fuel + 1) c env w s).tr ∧
    Ev.op "create" c ∈ (recreateLab (fuel + 1) c env w s).tr ∧
    (attempt (M.bind (deleteLab c) fun x =>
        waitUntilW "recreate-wait-create" 180 (fun w t => firstIn w t ["CREATE"])
          "Create button not available after delete.") (fun x => logError "Delete failed during recreate") w
      (checkLabStatus w
        (selectLabEnvironmentTab "lab-environment" w (goToCourse c env w s).st).st).st).out = .ok () ∧
    (recreateLab (fuel + 1) c env w s).out =
      (M.bind (createLab c) (fun x => recreateTail c) w
        (attempt (M.bind (deleteLab c) fun x =>
        waitUntilW "recreate-wait-create" 180 (fun w t => firstIn w t ["CREATE"])
          "Create button not available after delete.") (fun x => logError "Delete failed during recreate") w
          (checkLabStatus w
        (selectLabEnvironmentTab "lab-environment" w (goToCourse c env w s).st).st).st).st).out := by
  have hA := attempt_swallow_ok
    (M.bind (deleteLab c) fun x =>
        waitUntilW "recreate-wait-create" 180 (fun w t => firstIn w t ["CREATE"])
          "Create button not available after delete.")
    "Delete failed during recreate" w
    (checkLabStatus w
        (selectLabEnvironmentTab "lab-environment" w (goToCourse c env w s).st).st).st
  have hdel : Ev.op "delete" c ∈
      (attempt (M.bind (deleteLab c) fun x =>
        waitUntilW "recreate-wait-create" 180 (fun w t => firstIn w t ["CREATE"])
          "Create button not available after delete.") (fun x => logError "Delete failed during recreate") w
        (checkLabStatus w
        (selectLabEnvironmentTab "lab-environment" w (goToCourse c env w s).st).st).st).tr := by
    obtain ⟨rA, hAtr⟩ := attempt_tr_prefix (M.bind (deleteLab c) fun x =>
        waitUntilW "recreate-wait-create" 180 (fun w t => firstIn w t ["CREATE"])
          "Create button not available after delete.") (fun x => logError "Delete failed during recreate") w
      (checkLabStatus w
        (selectLabEnvironmentTab "lab-environment" w (goToCourse c env w s).st).st).st
    rw [hAtr]
    obtain ⟨r2, h2tr⟩ := bind_tr_prefix (deleteLab c)
      (fun x => waitUntilW "recreate-wait-create" 180 (fun w t => firstIn w t ["CREATE"])
        "Create button not available after delete.") w
      (checkLabStatus w
        (selectLabEnvironmentTab "lab-environment" w (goToCourse c env w s).st).st).st
    rw [bindB_eq] at h2tr
    rw [h2tr]
    obtain ⟨r3, h3tr⟩ := deleteLab_head c w
      (checkLabStatus w
        (selectLabEnvironmentTab "lab-environment" w (goToCourse c env w s).st).st).st
    rw [h3tr]
    simp
  simp only [bindB_eq, M.bind] at hA hdel
  refine ⟨?_, ?_, ?_, hA, ?_⟩
  · simp only [recreateLab, bindB_eq, M.bind, emit, hgo, hsl, hpr, logStep, logWarn,
      if_neg h1, if_neg h2, if_neg h3, if_neg h4]
    simp only [hA]
    simp [List.mem_append, List.mem_cons, hdel]
  · simp only [recreateLab, bindB_eq, M.bind, emit, hgo, hsl, hpr, logStep, logWarn,
      if_neg h1, if_neg h2, if_neg h3, if_neg h4]
    simp only [hA]
    simp [List.mem_append, List.mem_cons, hdel]
  · simp only [recreateLab, bindB_eq, M.bind, emit, hgo, hsl, hpr, logStep, logWarn,
      if_neg h1, if_neg h2, if_neg h3, if_neg h4]
    simp only [hA]
    obtain ⟨r3, h3tr⟩ := createLab_head c w
      ((attempt ((deleteLab c).bind fun x =>
            waitUntilW "recreate-wait-create" 180 (fun w t => firstIn w t ["CREATE"])
              "Create button not available after delete.")
          (fun x => logError "Delete failed during recreate") w
          (checkLabStatus w (selectLabEnvironmentTab "lab-environment" w
            (goToCourse c env w s).st).st).st).st)
    rcases hout : (createLab c w
      ((attempt ((deleteLab c).bind fun x =>
            waitUntilW "recreate-wait-create" 180 (fun w t => firstIn w t ["CREATE"])
              "Create button not available after delete.")
          (fun x => logError "Delete failed during recreate") w
          (checkLabStatus w (selectLabEnvironmentTab "lab-environment" w
            (goToCourse c env w s).st).st).st).st)).out with e | a <;>
      simp [hout, h3tr, List.mem_append, List.mem_cons]
  · simp only [recreateLab, bindB_eq, M.bind, emit, hgo, hsl, hpr, logStep, logWarn,
      if_neg h1, if_neg h2, if_neg h3, if_neg h4]
    simp only [hA]

/-- A healthy page whose lab panel holds no action buttons at all, so the
status probe reports `(none, none)`. -/
def wNoButtons : World :=
  { wCreate with labButtons := fun _ => [] }

/-- Closed instance of the C7 theorem on the zero-button oracle. -/
theorem recreateLab_unknown_status_fallback_witness :
    (goToCourse "c1" "" wNoButtons st0).out = .ok () ∧
    (selectLabEnvironmentTab "lab-environment" wNoButtons
      (goToCourse "c1" "" wNoButtons st0).st).out = .ok () ∧
    (checkLabStatus wNoButtons
      (selectLabEnvironmentTab "lab-environment" wNoButtons
        (goToCourse "c1" "" wNoButtons st0).st).st).out =
      .ok ((none : Option String), (none : Option String)) ∧
    Ev.warn "Unexpected lab status. Attempting fallback delete+create." ∈
      (recreateLab 1 "c1" "" wNoButtons st0).tr ∧
    Ev.op "delete" "c1" ∈ (recreateLab 1 "c1" "" wNoButtons st0).tr ∧
    Ev.op "create" "c1" ∈ (recreateLab 1 "c1" "" wNoButtons st0).tr :=
  ⟨by decide, by decide, by decide,
   (recreateLab_unknown_status_fallback wNoButtons st0 "c1" "" 0 none none
      (by decide) (by decide) (by decide) (by decide) (by decide) (by decide)
      (by decide)).1,
   (recreateLab_unknown_status_fallback wNoButtons st0 "c1" "" 0 none none
      (by decide) (by decide) (by decide) (by decide) (by decide) (by decide)
      (by decide)).2.1,
   (recreateLab_unknown_status_fallback wNoButtons st0 "c1" "" 0 none none
      (by decide) (by decide) (by decide) (by decide) (by decide) (by decide)
      (by decide)).2.2.1⟩

/-- A page where creation never completes: a Create button for the first
twenty ticks, then a perpetual `Creating` / `Starting` pair. -/
def wStuckCreating : World :=
  { wCreate with
    labButtons := fun t => if t < 20 then ["Create"] else ["Creating", "Starting"] }

set_option maxRecDepth 40000 in
set_option maxHeartbeats 1000000 in
/-- C3 counterexample: on `wStuckCreating`, `recreate_lab` returns
successfully even though the lab is still in the transient `CREATING`
state at — and forever after — the moment it returns: `create_lab` only
waits for creation to initiate, and the post-create adjustment steps
swallow their failures, so a successful return does not imply the lab
reached a stable state. -/
theorem recreateLab_returns_ok_in_transient_creating_state :
    (recreateLab 2 "c1" "" wStuckCreating st0).out = .ok () ∧
    firstTextAt wStuckCreating (recreateLab 2 "c1" "" wStuckCreating st0).st.time =
      some "CREATING" ∧
    (∀ t, 20 ≤ t → firstTextAt wStuckCreating t = some "CREATING") := by
  refine ⟨by decide, by decide, ?_⟩
  intro t ht
  simp only [firstTextAt, btnsAt, labBtns, wStuckCreating]
  rw [if_neg (Nat.not_lt.mpr ht)]
  decide

/-- C3 (amended): the transient-branch mechanics hold as specified — from a
`CREATING` probe the orchestrator polls (bounded 300) until the first
button stabilizes to `DELETE` or `CREATE`; if the poll times out it raises
that timeout, and if the poll succeeds at tick `t1` the whole run is the
recursive re-dispatch from the post-wait state (same outcome, trace a
fixed prefix followed by the recursive trace — so the post-create
adjustment steps are not appended a second time by this branch); from a
`DELETING` probe a successful run's lifecycle phases are exactly the
recreate entry, the wait for `CREATE`, then create.  (The headline "never
returns successfully in a transient state" is refuted separately: see the
counterexample.) -/
theorem recreateLab_transient_branch_mechanics
    (w : World) (s : St) (c env : String) (fuel : Nat) (p q : Option String)
    (hgo : (goToCourse c env w s).out = .ok ())
    (hsl : (selectLabEnvironmentTab "lab-environment" w (goToCourse c env w s).st).out = .ok ())
    (hpr : (checkLabStatus w
      (selectLabEnvironmentTab "lab-environment" w (goToCourse c env w s).st).st).out =
      .ok (p, q)) :
    (p = some "CREATING" →
      (waitFrom (fun tt => firstIn w tt ["DELETE", "CREATE"]) 300
          ((checkLabStatus w
      (selectLabEnvironmentTab "lab-environment" w (goToCourse c env w s).st).st).st).time = none →
        (recreateLab (fuel + 1) c env w s).out =
          .error (.timeout "Lab did not finish creating.")) ∧
      (∀ t1, waitFrom (fun tt => firstIn w tt ["DELETE", "CREATE"]) 300
          ((checkLabStatus w
      (selectLabEnvironmentTab "lab-environment" w (goToCourse c env w s).st).st).st).time = some t1 →
        firstIn w t1 ["DELETE", "CREATE"] = true ∧
        (recreateLab (fuel + 1) c env w s).out =
          (recreateLab fuel c env w ⟨t1, ((checkLabStatus w
      (selectLabEnvironmentTab "lab-environment" w (goToCourse c env w s).st).st).st).iface⟩).out ∧
        (recreateLab (fuel + 1) c env w s).tr =
          Ev.op "recreate" c :: (goToCourse c env w s).tr ++
          (selectLabEnvironmentTab "lab-environment" w (goToCourse c env w s).st).tr ++
          (checkLabStatus w
            (selectLabEnvironmentTab "lab-environment" w (goToCourse c env w s).st).st).tr ++
          [Ev.step "Current lab status",
           Ev.step "Lab is currently creating, waiting for completion...",
           Ev.waited "recreate-wait-stable"] ++
          (recreateLab fuel c env w ⟨t1, ((checkLabStatus w
      (selectLabEnvironmentTab "lab-environment" w (goToCourse c env w s).st).st).st).iface⟩).tr)) ∧
    (p = some "DELETING" →
      (recreateLab (fuel + 1) c env w s).out = .ok () →
      ((recreateLab (fuel + 1) c env w s).tr).filter isPhase =
        [.op "recreate" c, .waited "recreate-wait-deleted", .op "create" c] ∧
      ∃ t, firstIn w t ["CREATE"] = true) := by
  constructor
  · intro hp
    subst hp
    constructor
    · intro hwn
      have hw1 : (waitUntilW "recreate-wait-stable" 300
          (fun w t => firstIn w t ["DELETE", "CREATE"]) "Lab did not finish creating." w
          ((checkLabStatus w
      (selectLabEnvironmentTab "lab-environment" w (goToCourse c env w s).st).st).st)).out = .error (.timeout "Lab did not finish creating.") := by
        simp [waitUntilW, hwn]
      simp only [recreateLab, bindB_eq, M.bind, emit, hgo, hsl, hpr, logStep]
      simp only [Option.some.injEq, String.reduceEq, reduceCtorEq, if_false, if_true,
        reduceIte]
      rw [bind_run (show (emit
        (Ev.step "Lab is currently creating, waiting for completion...") w
        ((checkLabStatus w
      (selectLabEnvironmentTab "lab-environment" w (goToCourse c env w s).st).st).st)).out = .ok () from rfl)]
      simp only [emit]
      rw [bind_fail hw1]
    · intro t1 hwt
      have hw1 : (waitUntilW "recreate-wait-stable" 300
          (fun w t => firstIn w t ["DELETE", "CREATE"]) "Lab did not finish creating." w
          ((checkLabStatus w
      (selectLabEnvironmentTab "lab-environment" w (goToCourse c env w s).st).st).st)).out = .ok () := by
        simp [waitUntilW, hwt]
      refine ⟨(waitFrom_some _ _ _ _ hwt).1, ?_, ?_⟩
      · simp only [recreateLab, bindB_eq, M.bind, emit, hgo, hsl, hpr, logStep]
        simp only [Option.some.injEq, String.reduceEq, reduceCtorEq, if_false, if_true,
          reduceIte]
        rw [bind_run (show (emit
          (Ev.step "Lab is currently creating, waiting for completion...") w
          ((checkLabStatus w
        (selectLabEnvironmentTab "lab-environment" w (goToCourse c env w s).st).st).st)).out = .ok () from rfl)]
        simp only [emit]
        rw [bind_run hw1]
        simp [waitUntilW, hwt]
      · simp only [recreateLab, bindB_eq, M.bind, emit, hgo, hsl, hpr, logStep]
        simp only [Option.some.injEq, String.reduceEq, reduceCtorEq, if_false, if_true,
          reduceIte]
        rw [bind_run (show (emit
          (Ev.step "Lab is currently creating, waiting for completion...") w
          ((checkLabStatus w
        (selectLabEnvironmentTab "lab-environment" w (goToCourse c env w s).st).st).st)).out = .ok () from rfl)]
        simp only [emit]
        rw [bind_run hw1]
        simp [waitUntilW, hwt, List.append_assoc]
  · intro hp hok
    subst hp
    simp only [recreateLab, bindB_eq, M.bind, emit, hgo, hsl, hpr, logStep] at hok ⊢
    simp only [Option.some.injEq, String.reduceEq, reduceCtorEq, if_false, if_true,
      reduceIte] at hok ⊢
    rw [bind_run (show (emit
      (Ev.step "Lab is currently deleting, waiting for completion...") w
      ((checkLabStatus w
      (selectLabEnvironmentTab "lab-environment" w (goToCourse c env w s).st).st).st)).out = .ok () from rfl)] at hok ⊢
    simp only [emit] at hok ⊢
    rcases hwt : waitFrom (fun tt => firstIn w tt ["CREATE"]) 300
        (((checkLabStatus w
      (selectLabEnvironmentTab "lab-environment" w (goToCourse c env w s).st).st).st).time) with _ | t1
    · have hw1 : (waitUntilW "recreate-wait-deleted" 300
          (fun w t => firstIn w t ["CREATE"]) "Lab did not finish deleting." w
          ((checkLabStatus w
      (selectLabEnvironmentTab "lab-environment" w (goToCourse c env w s).st).st).st)).out = .error (.timeout "Lab did not finish deleting.") := by
        simp [waitUntilW, hwt]
      rw [bind_fail hw1] at hok
      simp at hok
    · have hw1 : (waitUntilW "recreate-wait-deleted" 300
          (fun w t => firstIn w t ["CREATE"]) "Lab did not finish deleting." w
          ((checkLabStatus w
      (selectLabEnvironmentTab "lab-environment" w (goToCourse c env w s).st).st).st)).out = .ok () := by
        simp [waitUntilW, hwt]
      rw [bind_run hw1] at hok ⊢
      rcases hc1 : (createLab c w
          ((waitUntilW "recreate-wait-deleted" 300
            (fun w t => firstIn w t ["CREATE"]) "Lab did not finish deleting." w
            ((checkLabStatus w
      (selectLabEnvironmentTab "lab-environment" w (goToCourse c env w s).st).st).st)).st)).out with e2 | u2
      · rw [bind_fail hc1] at hok
        simp at hok
      · rw [bind_run hc1] at hok ⊢
        refine ⟨?_, ⟨t1, (waitFrom_some _ _ _ _ hwt).1⟩⟩
        simp [List.filter_append, select_phase_nil, goToCourse_phase_nil,
          checkLabStatus_phase_nil, recreateTail_phase_nil, createLab_phase,
          isPhase, waitUntilW, hwt]

/-- A page mid-creation for thirty ticks that then stabilizes to a running
lab with Delete and Start buttons. -/
def wCreatingThenDelete : World :=
  { wCreate with
    labButtons := fun t => if t < 30 then ["Creating", "Starting"] else ["Delete", "Start"] }

/-- Closed instance of the amended C3 theorem on the stabilizing oracle. -/
theorem recreateLab_transient_branch_mechanics_witness :
    (checkLabStatus wCreatingThenDelete
      (selectLabEnvironmentTab "lab-environment" wCreatingThenDelete
        (goToCourse "c1" "" wCreatingThenDelete st0).st).st).out =
      .ok (some "CREATING", some "STARTING") ∧
    waitFrom (fun tt => firstIn wCreatingThenDelete tt ["DELETE", "CREATE"]) 300
      ((checkLabStatus wCreatingThenDelete
        (selectLabEnvironmentTab "lab-environment" wCreatingThenDelete
          (goToCourse "c1" "" wCreatingThenDelete st0).st).st).st.time) = some 30 ∧
    firstIn wCreatingThenDelete 30 ["DELETE", "CREATE"] = true ∧
    (recreateLab 2 "c1" "" wCreatingThenDelete st0).out =
      (recreateLab 1 "c1" "" wCreatingThenDelete
        ⟨30, (checkLabStatus wCreatingThenDelete
          (selectLabEnvironmentTab "lab-environment" wCreatingThenDelete
            (goToCourse "c1" "" wCreatingThenDelete st0).st).st).st.iface⟩).out :=
  ⟨by decide, by decide,
   (((recreateLab_transient_branch_mechanics wCreatingThenDelete st0 "c1" "" 1
      (some "CREATING") (some "STARTING") (by decide) (by decide) (by decide)).1
      rfl).2 30 (by decide)).1,
   (((recreateLab_transient_branch_mechanics wCreatingThenDelete st0 "c1" "" 1
      (some "CREATING") (some "STARTING") (by decide) (by decide) (by decide)).1
      rfl).2 30 (by decide)).2.1⟩

end LabMgr
